import Mathlib

/-!
Shallow embedding of the metering-ingestion and invoice-computation core of
the `Obracun-elektricne-energije-BACK` service (FastAPI + SQLAlchemy +
PostgreSQL), and proofs of the frozen claims about it.

Modelling conventions
* Python `Decimal` columns are modelled as scaled integers:
  `poraba_kwh` (DECIMAL(10,4)) carries a factor of 10^4,
  `dinamicna_cena_eur_kwh` (DECIMAL(8,5)) a factor of 10^5,
  money amounts (DECIMAL(10,2)) a factor of 10^2.
  `Decimal.quantize` with the default `ROUND_HALF_EVEN` context becomes `rhe`.
* Timestamps and dates are modelled as natural numbers (seconds); SQLAlchemy
  comparisons between a `TIMESTAMP` column and a date coerce the date to the
  midnight instant, so both sides live on one axis.
* The database session is explicit state (`DB`); a committed transaction
  returns the new state, an aborted one returns an error and the caller keeps
  the old state.  PostgreSQL's unique constraint on `racuni.stevilka_racuna`
  (models.py line 58) is modelled as a membership check at insert time.
* HTTP error responses / raised exceptions become the `ApiError` type.
-/

/-- `Decimal.quantize` to a coarser scale under the default
`ROUND_HALF_EVEN` rounding: round-half-to-even of `n / d` for `d > 0`. -/
def rhe (n : Int) (d : Int) : Int :=
  let q := n / d
  let r := n % d
  if 2 * r < d then q
  else if d < 2 * r then q + 1
  else if q % 2 = 0 then q else q + 1

/-- A stored measurement row (`Meritev`, models.py lines 35-51). -/
structure Meritev where
  id : Nat
  lokacija_id : Nat
  casovni_zig : Nat
  poraba_kwh : Int
  dinamicna_cena_eur_kwh : Int
  created_at : Nat
  deriving Repr, DecidableEq

/-- A metering location (`Lokacija`, models.py lines 20-33). -/
structure Lokacija where
  id : Nat
  stranka_id : Nat
  deriving Repr, DecidableEq

/-- A customer (`Stranka`, models.py lines 6-18); only the fields the
embedded operations read. -/
structure Stranka where
  id : Nat
  email : Option String
  deriving Repr, DecidableEq

/-- An invoice header (`Racun`, models.py lines 53-68). -/
structure Racun where
  id : Nat
  lokacija_id : Nat
  stevilka_racuna : String
  datum_od : Nat
  datum_do : Nat
  skupni_znesek : Int
  status : String
  datum_izdaje : Nat
  pdf_pot : Option String
  deriving Repr, DecidableEq

/-- An invoice line item (`PostavkaRacuna`, models.py lines 70-82). -/
structure PostavkaRacuna where
  id : Nat
  racun_id : Nat
  meritev_id : Nat
  poraba_kwh : Int
  cena_eur_kwh : Int
  znesek : Int
  deriving Repr, DecidableEq

/-- The persistent state: one table per entity plus primary-key counters. -/
structure DB where
  stranke : List Stranka
  lokacije : List Lokacija
  meritve : List Meritev
  racuni : List Racun
  postavke : List PostavkaRacuna
  next_meritev_id : Nat
  next_racun_id : Nat
  next_postavka_id : Nat
  deriving Repr, DecidableEq

/-- Errors surfaced to callers (HTTPException details / raised exceptions),
named after the spec's error taxonomy (§7). -/
inductive ApiError where
  | notFound
  | duplicateReading
  | invalidConsumption
  | invalidPrice
  | emptyList
  | batchTooLarge
  | emptyPeriod
  | invoiceNumberConflict
  | pdfMissing
  | recipientMissing
  | emailNotConfigured
  | smtpFailure
  | integrityViolation
  | nameError (n : String)
  deriving Repr, DecidableEq

/-- The period filter of `calculate_invoice_amount` / `calculate_statistics`
(calculation_service.py lines 23-29 and 74-80): location match and
`datum_od <= casovni_zig <= datum_do` (both bounds inclusive). -/
def periodFilter (db : DB) (lid od do_ : Nat) : List Meritev :=
  db.meritve.filter (fun m =>
    m.lokacija_id == lid && decide (od ≤ m.casovni_zig) && decide (m.casovni_zig ≤ do_))

/-- Insertion step for `ORDER BY casovni_zig` (ascending, stable). -/
def insertByTs (m : Meritev) : List Meritev → List Meritev
  | [] => [m]
  | x :: xs => if m.casovni_zig ≤ x.casovni_zig then m :: x :: xs else x :: insertByTs m xs

/-- `ORDER BY casovni_zig` of the SQL query, as insertion sort. -/
def sortByTs (l : List Meritev) : List Meritev := l.foldr insertByTs []

/-- One computed invoice line (the dict built at
calculation_service.py lines 43-49). -/
structure LineItem where
  meritev_id : Nat
  casovni_zig : Nat
  poraba_kwh : Int
  cena_eur_kwh : Int
  znesek : Int
  deriving Repr, DecidableEq

/-- The per-reading amount: `(poraba_kwh * dinamicna_cena_eur_kwh).quantize('0.01')`
(calculation_service.py lines 40-41).  The raw product carries scale
10^(4+5) = 10^9; quantizing to scale 10^2 divides by 10^7 half-to-even. -/
def lineOf (m : Meritev) : LineItem :=
  { meritev_id := m.id
    casovni_zig := m.casovni_zig
    poraba_kwh := m.poraba_kwh
    cena_eur_kwh := m.dinamicna_cena_eur_kwh
    znesek := rhe (m.poraba_kwh * m.dinamicna_cena_eur_kwh) (10 ^ 7) }

/-- `CalculationService.calculate_invoice_amount`
(calculation_service.py lines 11-62).  Returns the total (scale 10^2) and the
line items ordered by timestamp; an empty period returns `(0, [])`.
The final `total_amount.quantize('0.01')` (line 54) requantizes a value that
already has scale 10^2, i.e. divides by 10^0 = 1. -/
def calculate_invoice_amount (db : DB) (lid od do_ : Nat) : Int × List LineItem :=
  let meritve := sortByTs (periodFilter db lid od do_)
  if meritve.isEmpty then (0, [])
  else
    let line_items := meritve.map lineOf
    let total := (line_items.map (fun it => it.znesek)).sum
    (rhe total 1, line_items)

/-- The statistics record of `calculate_statistics`. -/
structure Stats where
  skupna_poraba : Int
  skupni_strosek : Int
  povprecna_cena : Int
  minimalna_cena : Int
  maksimalna_cena : Int
  st_meritev : Nat
  deriving Repr, DecidableEq

/-- Minimum of a price list via `foldl min` (Python `min(cene)`);
only used on non-empty lists. -/
def listMin : List Int → Int
  | [] => 0
  | x :: xs => xs.foldl min x

/-- Maximum of a price list (Python `max(cene)`). -/
def listMax : List Int → Int
  | [] => 0
  | x :: xs => xs.foldl max x

/-- `CalculationService.calculate_statistics`
(calculation_service.py lines 64-112).  The empty window returns all zeros;
otherwise sums, extrema and the average are taken over the rows matched by
`periodFilter`.  `skupna_poraba` requantizes a scale-10^4 sum to its own
scale (divide by 1); `skupni_strosek` quantizes the scale-10^9 sum of raw
products to scale 10^2; the average divides the scale-10^5 price sum by the
count and quantizes to scale 10^5 (the intermediate 28-significant-digit
division context is exact at every magnitude this model distinguishes). -/
def calculate_statistics (db : DB) (lid od do_ : Nat) : Stats :=
  let meritve := periodFilter db lid od do_
  if meritve.isEmpty then
    { skupna_poraba := 0, skupni_strosek := 0, povprecna_cena := 0
      minimalna_cena := 0, maksimalna_cena := 0, st_meritev := 0 }
  else
    let cene := meritve.map (fun m => m.dinamicna_cena_eur_kwh)
    { skupna_poraba := rhe ((meritve.map (fun m => m.poraba_kwh)).sum) 1
      skupni_strosek :=
        rhe ((meritve.map (fun m => m.poraba_kwh * m.dinamicna_cena_eur_kwh)).sum) (10 ^ 7)
      povprecna_cena := rhe cene.sum (Int.ofNat meritve.length)
      minimalna_cena := rhe (listMin cene) 1
      maksimalna_cena := rhe (listMax cene) 1
      st_meritev := meritve.length }

example : rhe 1500000000 (10 ^ 7) = 150 := by decide
example : rhe 25 10 = 2 := by decide
example : rhe 35 10 = 4 := by decide
example : rhe (-15) 10 = -2 := by decide

/-! ## Reading ingestion (routers/meritve.py, schemas/csv_service.py) -/

/-- The `MeritevCreate` request schema (schemas.py lines 61-62). -/
structure MeritevCreate where
  lokacija_id : Nat
  casovni_zig : Nat
  poraba_kwh : Int
  dinamicna_cena_eur_kwh : Int
  deriving Repr, DecidableEq

/-- Does a location row with this id exist? -/
def lokExists (db : DB) (lid : Nat) : Bool :=
  db.lokacije.any (fun l => l.id == lid)

/-- Is there a stored reading with this (location, timestamp) key? (the
`db.query(Meritev).filter(and_(...)).first()` duplicate probe). -/
def dupProbe (ms : List Meritev) (lid ts : Nat) : Bool :=
  ms.any (fun x => x.lokacija_id == lid && x.casovni_zig == ts)

/-- Materialize an accepted request record as a stored row. -/
def storeMeritev (mid now : Nat) (m : MeritevCreate) : Meritev :=
  { id := mid, lokacija_id := m.lokacija_id, casovni_zig := m.casovni_zig
    poraba_kwh := m.poraba_kwh, dinamicna_cena_eur_kwh := m.dinamicna_cena_eur_kwh
    created_at := now }

/-- Single-record creation `create_meritev` (meritve.py lines 67-109):
location lookup, duplicate probe on (location, timestamp), value checks,
then insert and commit.  `now` models the server clock filling `created_at`. -/
def create_meritev (db : DB) (now : Nat) (m : MeritevCreate) :
    Except ApiError (DB × Meritev) :=
  if ¬ lokExists db m.lokacija_id then .error .notFound
  else if dupProbe db.meritve m.lokacija_id m.casovni_zig then .error .duplicateReading
  else if m.poraba_kwh < 0 then .error .invalidConsumption
  else if m.dinamicna_cena_eur_kwh ≤ 0 then .error .invalidPrice
  else
    let row := storeMeritev db.next_meritev_id now m
    .ok ({ db with meritve := db.meritve ++ [row]
                   next_meritev_id := db.next_meritev_id + 1 }, row)

/-- Accumulator of the tolerant bulk loop (meritve.py lines 140-171):
accepted-but-uncommitted rows, the next primary key, success and error
counters, and the accumulated error messages. -/
structure BulkState where
  acc : List Meritev
  nextId : Nat
  sc : Nat
  ec : Nat
  errs : List String
  deriving Repr, DecidableEq

/-- One iteration of the bulk loop (meritve.py lines 144-171): the duplicate
probe runs against the table plus the session's pending inserts (the ORM
autoflushes pending rows before the query), then the value checks; a passing
record is added to the session, a failing one only appends an error. -/
def bulkStep (base : List Meritev) (now : Nat) (st : BulkState) (m : MeritevCreate) :
    BulkState :=
  if dupProbe (base ++ st.acc) m.lokacija_id m.casovni_zig then
    { st with ec := st.ec + 1
              errs := st.errs ++ ["Meritev za " ++ toString m.casovni_zig ++ " že obstaja"] }
  else if m.poraba_kwh < 0 || m.dinamicna_cena_eur_kwh ≤ 0 then
    { st with ec := st.ec + 1
              errs := st.errs ++ ["Neveljavne vrednosti za " ++ toString m.casovni_zig] }
  else
    { st with acc := st.acc ++ [storeMeritev st.nextId now m]
              nextId := st.nextId + 1
              sc := st.sc + 1 }

/-- Response body of the bulk endpoint (meritve.py lines 180-184). -/
structure BulkResult where
  success_count : Nat
  error_count : Nat
  errors : List String
  deriving Repr, DecidableEq

/-- Bulk creation `create_bulk_meritve` (meritve.py lines 111-189): empty-list
and 10,000-cap guards, existence of every referenced location, then the
per-record tolerant loop; the pending rows are committed only when at least
one record succeeded, and at most 10 error messages are returned. -/
def create_bulk_meritve (db : DB) (now : Nat) (batch : List MeritevCreate) :
    Except ApiError (DB × BulkResult) :=
  if batch.isEmpty then .error .emptyList
  else if batch.length > 10000 then .error .batchTooLarge
  else if ¬ batch.all (fun m => lokExists db m.lokacija_id) then .error .notFound
  else
    let st := batch.foldl (bulkStep db.meritve now)
      { acc := [], nextId := db.next_meritev_id, sc := 0, ec := 0, errs := [] }
    let db' :=
      if st.sc > 0 then
        { db with meritve := db.meritve ++ st.acc, next_meritev_id := st.nextId }
      else db
    .ok (db', { success_count := st.sc, error_count := st.ec, errors := st.errs.take 10 })

/-- One parsed CSV record (a DataFrame row after `parse_csv_content` renamed
the columns): `none` in a numeric field models an unparsable cell, `none` in
the timestamp models `NaN`.  Values already carry the model scales. -/
structure CsvRow where
  casovni_zig : Option Nat
  poraba_kwh : Option Int
  dinamicna_cena_eur_kwh : Option Int
  deriving Repr, DecidableEq

/-- The per-field complaints of one row (csv_service.py lines 64-86), in the
order the code checks them. -/
def rowErrors (r : CsvRow) : List String :=
  (if r.casovni_zig.isNone then ["manjka časovna značka"] else []) ++
  (match r.poraba_kwh with
   | none => ["neveljavna vrednost porabe"]
   | some p => if p < 0 then ["poraba ne more biti negativna"] else []) ++
  (match r.dinamicna_cena_eur_kwh with
   | none => ["neveljavna vrednost cene"]
   | some c => if c ≤ 0 then ["cena mora biti pozitivna"] else [])

/-- The human-facing message for a failing row: `Vrstica {idx + 2}: ...`
(csv_service.py line 88) — 0-based DataFrame index plus 1 for 1-basing and 1
for the header line. -/
def rowMessage (idx : Nat) (r : CsvRow) : String :=
  "Vrstica " ++ toString (idx + 2) ++ ": " ++ String.intercalate ", " (rowErrors r)

/-- `CSVService.validate_csv_data` (csv_service.py lines 46-90).  The
required-columns check is discharged by the `CsvRow` type (the parser already
renamed the three columns); an empty frame yields the fixed message, otherwise
each failing row contributes one indexed message. -/
def validate_csv_data (rows : List CsvRow) : List String :=
  if rows.isEmpty then ["CSV datoteka je prazna"]
  else
    rows.enum.filterMap (fun p =>
      if (rowErrors p.2).isEmpty then none else some (rowMessage p.1 p.2))

/-- The conversion loop of `import_csv_to_database` (csv_service.py lines
133-151): a row whose fields all parse becomes an insert mapping, a failing
row is skipped. -/
def csvConvert (lid : Nat) (r : CsvRow) : Option MeritevCreate :=
  match r.casovni_zig, r.poraba_kwh, r.dinamicna_cena_eur_kwh with
  | some ts, some p, some c =>
      some { lokacija_id := lid, casovni_zig := ts, poraba_kwh := p
             dinamicna_cena_eur_kwh := c }
  | _, _, _ => none

/-- Response schema `CSVImportResponse` (schemas.py lines 124-128). -/
structure CSVImportResponse where
  success : Bool
  message : String
  imported_count : Nat
  errors : List String
  deriving Repr, DecidableEq

/-- `CSVService.import_csv_to_database` (csv_service.py lines 92-182):
location lookup, whole-batch validation gate (at most 10 errors surfaced, no
write), optional delete of the location's prior readings when
`replace_existing` is set, then conversion and one bulk insert — with no
duplicate probe and no batch-size cap on this path.  The function returns the
response together with the state actually committed: every failure branch
returns before `db.commit()`, so the caller keeps the original state. -/
def import_csv_to_database (db : DB) (now : Nat) (rows : List CsvRow)
    (lid : Nat) (replace_existing : Bool) : CSVImportResponse × DB :=
  if ¬ lokExists db lid then
    ({ success := false, message := "Lokacija ne obstaja", imported_count := 0
       errors := ["Lokacija ne obstaja"] }, db)
  else
    let errors := validate_csv_data rows
    if ¬ errors.isEmpty then
      ({ success := false, message := "Napake v podatkih", imported_count := 0
         errors := errors.take 10 }, db)
    else
      let kept := if replace_existing then
          db.meritve.filter (fun m => ¬ m.lokacija_id == lid)
        else db.meritve
      let recs := rows.filterMap (csvConvert lid)
      if recs.isEmpty then
        ({ success := false, message := "Ni veljavnih podatkov za uvoz"
           imported_count := 0, errors := ["Ni veljavnih podatkov za uvoz"] }, db)
      else
        let inserted := (recs.enumFrom db.next_meritev_id).map
          (fun p => storeMeritev p.1 now p.2)
        ({ success := true
           message := "Uspešno uvoženih " ++ toString recs.length ++ " meritev"
           imported_count := recs.length, errors := [] },
         { db with meritve := kept ++ inserted
                   next_meritev_id := db.next_meritev_id + recs.length })

/-! ## Invoice numbering and creation (services/invoice_service.py) -/

/-- Decimal digits of a positive number, least significant first; the fuel
argument (any bound on the number) keeps the recursion structural. -/
def natDigitsAux : Nat → Nat → List Nat
  | 0, _ => []
  | _ + 1, 0 => []
  | fuel + 1, n + 1 => ((n + 1) % 10) :: natDigitsAux fuel ((n + 1) / 10)

/-- Decimal digits, most significant first, of any number (`0` renders as a
single digit, as Python's `str` does). -/
def natDigits (n : Nat) : List Nat :=
  if n = 0 then [0] else (natDigitsAux n n).reverse

/-- Digit list of Python's `f"{n:06d}"`: zero-pad on the left to width 6
(wider numbers keep all their digits). -/
def pad6Digits (n : Nat) : List Nat :=
  List.replicate (6 - (natDigits n).length) 0 ++ natDigits n

/-- Render a digit as its character. -/
def digChar (d : Nat) : Char := Char.ofNat (48 + d)

/-- Render a digit list as a string. -/
def digStr (l : List Nat) : String := String.mk (l.map digChar)

/-- Python `f"{n:06d}"`. -/
def pad6 (n : Nat) : String := digStr (pad6Digits n)

/-- Decimal rendering of a number (Python `str(n)` for `n ≥ 0`). -/
def natStr (n : Nat) : String := digStr (natDigits n)

/-- SQL `LIKE 'p%'`: does `s` start with `p`? -/
def strLike (s p : String) : Bool := s.data.take p.data.length == p.data

/-- The year tag `f"{current_year}-"` that invoice numbers of a year share. -/
def yearTag (y : Nat) : String := natStr y ++ "-"

/-- Count of stored invoices whose number is `LIKE f"{year}-%"`
(invoice_service.py lines 25-27). -/
def yearCount (db : DB) (y : Nat) : Nat :=
  (db.racuni.filter (fun r => strLike r.stevilka_racuna (yearTag y))).length

/-- `InvoiceService.generate_invoice_number` (invoice_service.py lines
20-30): `f"{current_year}-{count + 1:06d}"`, with the calendar year of the
server clock passed in as `y`. -/
def generate_invoice_number (db : DB) (y : Nat) : String :=
  yearTag y ++ pad6 (yearCount db y + 1)

/-- Materialize the line items of a fresh invoice (invoice_service.py lines
69-80), assigning primary keys from `pid` on. -/
def storePostavke (rid pid : Nat) (items : List LineItem) : List PostavkaRacuna :=
  (items.enumFrom pid).map (fun p =>
    { id := p.1, racun_id := rid, meritev_id := p.2.meritev_id
      poraba_kwh := p.2.poraba_kwh, cena_eur_kwh := p.2.cena_eur_kwh
      znesek := p.2.znesek })

/-- `InvoiceService.create_invoice` (invoice_service.py lines 32-92): run the
calculator, abort when no line items match (`ValueError("Ni podatkov za
izbrano obdobje")`, the spec's `EmptyPeriod`); otherwise generate the number,
insert the header with status `USTVARJEN` plus all line items and commit as
one transaction.  The PostgreSQL unique constraint on `stevilka_racuna`
rejects a colliding number at commit; the `except` block then rolls the whole
transaction back, surfaced here as `invoiceNumberConflict`. -/
def create_invoice (db : DB) (now y lid od do_ : Nat) :
    Except ApiError (DB × Racun) :=
  let r := calculate_invoice_amount db lid od do_
  if r.2.isEmpty then .error .emptyPeriod
  else
    let num := generate_invoice_number db y
    if db.racuni.any (fun x => x.stevilka_racuna == num) then .error .invoiceNumberConflict
    else
      let racun : Racun :=
        { id := db.next_racun_id, lokacija_id := lid, stevilka_racuna := num
          datum_od := od, datum_do := do_, skupni_znesek := r.1
          status := "USTVARJEN", datum_izdaje := now, pdf_pot := none }
      .ok ({ db with
               racuni := db.racuni ++ [racun]
               postavke := db.postavke ++ storePostavke racun.id db.next_postavka_id r.2
               next_racun_id := db.next_racun_id + 1
               next_postavka_id := db.next_postavka_id + r.2.length }, racun)

/-- `delete_racun` (racuni.py lines 132-143): `db.delete(racun)` followed by
`db.commit()`, with no exception handler.  The `Racun.postavke` relationship
(models.py line 68) declares no delete cascade and `postavka_racuna.racun_id`
is NOT NULL (models.py line 74), so when the invoice has line items the ORM's
default de-association of the children (or, failing that, the foreign-key
constraint on the parent row's DELETE) raises `IntegrityError` at commit:
nothing is deleted and the endpoint fails.  Only an invoice without line
items — which this program never creates — could actually be removed, and
then only its header row is touched. -/
def delete_racun (db : DB) (rid : Nat) : Except ApiError DB :=
  if ¬ db.racuni.any (fun r => r.id == rid) then .error .notFound
  else if db.postavke.any (fun p => p.racun_id == rid) then .error .integrityViolation
  else .ok { db with racuni := db.racuni.filter (fun r => ¬ r.id == rid) }

/-! ## Invoice document and delivery status (invoice_service.py,
email_service.py, routers/racuni.py) -/

/-- Fetch an invoice row by id (`db.query(Racun).filter(...).first()`). -/
def findRacun (db : DB) (rid : Nat) : Option Racun :=
  db.racuni.find? (fun r => r.id == rid)

/-- `InvoiceService.generate_pdf` (invoice_service.py lines 94-159): render
the document, then record the document path and set status `GENERIRAN` —
unconditionally, whatever the prior status was. -/
def generate_pdf (db : DB) (rid : Nat) : Except ApiError (DB × String) :=
  match findRacun db rid with
  | none => .error .notFound
  | some racun =>
      let path := "racun_" ++ racun.stevilka_racuna ++ ".pdf"
      .ok ({ db with racuni := db.racuni.map (fun r =>
               if r.id == rid then { r with pdf_pot := some path, status := "GENERIRAN" }
               else r) }, path)

/-- The pdf-download endpoint `get_racun_pdf` (racuni.py lines 88-106):
regenerate only when the invoice has no recorded document path, otherwise
serve the recorded path without touching the row. -/
def get_racun_pdf (db : DB) (rid : Nat) : Except ApiError (DB × String) :=
  match findRacun db rid with
  | none => .error .notFound
  | some racun =>
      match racun.pdf_pot with
      | none => generate_pdf db rid
      | some path => .ok (db, path)

/-- `EmailService.send_invoice_email` (email_service.py lines 15-105): the
invoice must exist and have a recorded document, the recipient comes from the
request or the customer record, SMTP must be configured (`smtpConf`), and
only after `aiosmtplib.send` succeeds (`smtpOk`, the collaborator's verdict)
is the status set to `POSLAN` and committed; any earlier failure raises and
leaves the row untouched. -/
def send_invoice_email (db : DB) (rid : Nat) (recipient : Option String)
    (smtpConf smtpOk : Bool) : Except ApiError (DB × Bool) :=
  match findRacun db rid with
  | none => .error .notFound
  | some racun =>
      if racun.pdf_pot.isNone then .error .pdfMissing
      else
        match db.lokacije.find? (fun l => l.id == racun.lokacija_id) with
        | none => .error .notFound
        | some lokacija =>
            match db.stranke.find? (fun s => s.id == lokacija.stranka_id) with
            | none => .error .notFound
            | some stranka =>
                if (recipient <|> stranka.email).isNone then .error .recipientMissing
                else if ¬ smtpConf then .error .emailNotConfigured
                else if ¬ smtpOk then .error .smtpFailure
                else
                  .ok ({ db with racuni := db.racuni.map (fun r =>
                           if r.id == rid then { r with status := "POSLAN" } else r) },
                       true)

/-! ## Retention/cleanup (routers/admin.py) -/

/-- Names bound at module scope of `app/routers/admin.py` by its import
statements and definitions (lines 1-18 plus the four endpoint functions).
Python resolves a bare name against the local scope, these module globals and
the builtins; `timedelta` is in none of them (the `datetime` import on line 4
brings in only `date` and `datetime`, and `timedelta` is not a builtin). -/
def adminScope : List String :=
  ["APIRouter", "Depends", "HTTPException", "UploadFile", "File", "Form",
   "BackgroundTasks", "Session", "List", "Optional", "date", "datetime",
   "get_db", "app_logger", "Stranka", "Lokacija", "Meritev", "Racun",
   "CSVImportRequest", "CSVImportResponse", "DashboardStats",
   "LokacijaStatistics", "CSVService", "CalculationService", "router",
   "import_csv", "get_dashboard_stats", "get_location_statistics",
   "cleanup_old_data"]

/-- Result body of the cleanup endpoint (admin.py lines 166-193). -/
structure CleanupResult where
  dry_run : Bool
  meritve_count : Nat
  racuni_count : Nat
  deriving Repr, DecidableEq

/-- The cleanup endpoint `cleanup_old_data` (admin.py lines 147-198).  Its
first statement, `cutoff_date = datetime.now() - timedelta(days=days_old)`
(line 155), evaluates the names `datetime` and `timedelta`; resolving a name
absent from every scope raises `NameError` at that point, before any query or
delete runs.  The remaining body (counting, the dry-run report, the deletes
and the commit) is reached only if both names resolve. -/
def cleanup_old_data (db : DB) (now : Nat) (days_old : Nat) (dry_run : Bool) :
    Except ApiError (DB × CleanupResult) :=
  if ¬ ("datetime" ∈ adminScope) then .error (.nameError "datetime")
  else if ¬ ("timedelta" ∈ adminScope) then .error (.nameError "timedelta")
  else
    let cutoff := now - days_old * 86400
    let oldM := db.meritve.filter (fun m => m.created_at < cutoff)
    let oldR := db.racuni.filter (fun r => r.datum_izdaje < cutoff)
    if dry_run then
      .ok (db, { dry_run := true, meritve_count := oldM.length, racuni_count := oldR.length })
    else
      .ok ({ db with meritve := db.meritve.filter (fun m => ¬ m.created_at < cutoff)
                     racuni := db.racuni.filter (fun r => ¬ r.datum_izdaje < cutoff) },
           { dry_run := false, meritve_count := oldM.length, racuni_count := oldR.length })

/-! ## Status ranks and iterated creation -/

/-- Rank of the invoice lifecycle states `USTVARJEN → GENERIRAN → POSLAN`
(the spec's CREATED → DOCUMENT_GENERATED → SENT). -/
def statusRank (s : String) : Nat :=
  if s = "POSLAN" then 2 else if s = "GENERIRAN" then 1 else 0

/-- Every invoice that reached `POSLAN` carries a recorded document path:
`send_invoice_email` refuses to run without one and never clears it. -/
def pdfInv (db : DB) : Prop :=
  ∀ r ∈ db.racuni, r.status = "POSLAN" → r.pdf_pot.isSome = true

/-- One operation moved every invoice row only forward: same row count, ids
preserved positionally, and no status rank decreased. -/
def forwardStep (l l' : List Racun) : Prop :=
  l'.length = l.length ∧
  ∀ i (h : i < l.length) (h' : i < l'.length),
    (l'.get ⟨i, h'⟩).id = (l.get ⟨i, h⟩).id ∧
    statusRank ((l.get ⟨i, h⟩).status) ≤ statusRank ((l'.get ⟨i, h'⟩).status)

/-- One caller-visible invoice operation: create an invoice for the fixed
location and period, or attempt to delete the invoice with a given id. -/
inductive AdminOp where
  | createOp : AdminOp
  | deleteOp (rid : Nat) : AdminOp
  deriving Repr, DecidableEq

/-- Does the operation create an invoice? -/
def isCreateOp : AdminOp → Bool
  | .createOp => true
  | .deleteOp _ => false

/-- Run a sequence of invoice operations, collecting the created invoices
in creation order.  A failed creation aborts the run (`none`); a failed
deletion is an HTTP error to its own caller and leaves the state unchanged,
so the run continues. -/
def opRun (now y lid od do_ : Nat) : List AdminOp → DB → Option (DB × List Racun)
  | [], db => some (db, [])
  | .createOp :: ops, db =>
    match create_invoice db now y lid od do_ with
    | .error _ => none
    | .ok (db1, r) =>
      match opRun now y lid od do_ ops db1 with
      | none => none
      | some (db2, rs) => some (db2, r :: rs)
  | .deleteOp rid :: ops, db =>
    match delete_racun db rid with
    | .error _ => opRun now y lid od do_ ops db
    | .ok db1 => opRun now y lid od do_ ops db1

/-! ## Concrete states used by witnesses and counterexamples -/

/-- A minimal state: one customer, one location, no readings. -/
def baseDb : DB :=
  { stranke := [{ id := 1, email := some "stranka@example.si" }]
    lokacije := [{ id := 1, stranka_id := 1 }]
    meritve := [], racuni := [], postavke := []
    next_meritev_id := 1, next_racun_id := 1, next_postavka_id := 1 }

/-- The base state holding one reading at timestamp 50. -/
def dbWithReading : DB :=
  { baseDb with
      meritve := [{ id := 1, lokacija_id := 1, casovni_zig := 50,
                    poraba_kwh := 100000, dinamicna_cena_eur_kwh := 15000,
                    created_at := 0 }]
      next_meritev_id := 2 }

/-- A CSV row that duplicates the stored reading's (location 1, timestamp 50)
key (values parse and validate). -/
def dupCsvRow : CsvRow :=
  { casovni_zig := some 50, poraba_kwh := some 20000
    dinamicna_cena_eur_kwh := some 30000 }

/-- A single-record creation request duplicating the stored
(location 1, timestamp 50) key. -/
def dupCreate : MeritevCreate :=
  { lokacija_id := 1, casovni_zig := 50, poraba_kwh := 20000
    dinamicna_cena_eur_kwh := 30000 }

/-- A well-formed CSV row (used to build an oversized but valid batch). -/
def goodCsvRow : CsvRow :=
  { casovni_zig := some 1, poraba_kwh := some 10000
    dinamicna_cena_eur_kwh := some 20000 }

/-- The spec's Scenario B batch: three records, the second with negative
consumption. -/
def scenarioBRows : List CsvRow :=
  [{ casovni_zig := some 1, poraba_kwh := some 50000, dinamicna_cena_eur_kwh := some 15000 },
   { casovni_zig := some 2, poraba_kwh := some (-10000), dinamicna_cena_eur_kwh := some 15000 },
   { casovni_zig := some 3, poraba_kwh := some 50000, dinamicna_cena_eur_kwh := some 15000 }]

/-- The spec's Scenario C batch: three bulk-create records, the second
duplicating the stored (location 1, timestamp 50) reading. -/
def scenarioCBatch : List MeritevCreate :=
  [{ lokacija_id := 1, casovni_zig := 60, poraba_kwh := 10000, dinamicna_cena_eur_kwh := 15000 },
   { lokacija_id := 1, casovni_zig := 50, poraba_kwh := 10000, dinamicna_cena_eur_kwh := 15000 },
   { lokacija_id := 1, casovni_zig := 70, poraba_kwh := 10000, dinamicna_cena_eur_kwh := 15000 }]

/-- A single bulk-create record (replicated to overflow the batch cap). -/
def plainRecord : MeritevCreate :=
  { lokacija_id := 1, casovni_zig := 90, poraba_kwh := 10000
    dinamicna_cena_eur_kwh := 15000 }

/-- A state holding one invoice already in the terminal `POSLAN` state with
its document recorded. -/
def dbSentInvoice : DB :=
  { baseDb with
      racuni := [{ id := 7, lokacija_id := 1, stevilka_racuna := "2025-000001",
                   datum_od := 0, datum_do := 100, skupni_znesek := 150,
                   status := "POSLAN", datum_izdaje := 0,
                   pdf_pot := some "racun_2025-000001.pdf" }]
      next_racun_id := 8 }

/-- A state holding one freshly created invoice (`USTVARJEN`, no document). -/
def dbFreshInvoice : DB :=
  { baseDb with
      racuni := [{ id := 7, lokacija_id := 1, stevilka_racuna := "2025-000001",
                   datum_od := 0, datum_do := 100, skupni_znesek := 150,
                   status := "USTVARJEN", datum_izdaje := 0, pdf_pot := none }]
      next_racun_id := 8 }

/-! ## Helper lemmas -/

/-- Requantizing to the scale a value already has is the identity. -/
theorem rhe_one (t : Int) : rhe t 1 = t := by
  norm_num [rhe, Int.emod_one, Int.ediv_one]

theorem mem_insertByTs {m a : Meritev} {l : List Meritev} :
    a ∈ insertByTs m l ↔ a = m ∨ a ∈ l := by
  induction l with
  | nil => simp [insertByTs]
  | cons x xs ih =>
      by_cases h : m.casovni_zig ≤ x.casovni_zig
      · simp [insertByTs, h]
      · simp [insertByTs, h, ih]
        tauto

theorem mem_sortByTs {a : Meritev} {l : List Meritev} :
    a ∈ sortByTs l ↔ a ∈ l := by
  induction l with
  | nil => simp [sortByTs]
  | cons x xs ih =>
      simp only [sortByTs, List.foldr] at *
      rw [mem_insertByTs, ih, List.mem_cons]

theorem insertByTs_ne_nil {m : Meritev} {l : List Meritev} :
    insertByTs m l ≠ [] := by
  cases l with
  | nil => simp [insertByTs]
  | cons x xs =>
      by_cases h : m.casovni_zig ≤ x.casovni_zig <;> simp [insertByTs, h]

theorem sortByTs_eq_nil_iff {l : List Meritev} :
    sortByTs l = [] ↔ l = [] := by
  cases l with
  | nil => simp [sortByTs]
  | cons x xs =>
      simp only [sortByTs, List.foldr]
      exact ⟨fun h => absurd h insertByTs_ne_nil, fun h => by cases h⟩

/-! ## C10 — retention/cleanup raises NameError -/

/-- C10: every call to the cleanup endpoint, in dry-run and in live mode,
fails with `NameError` on the unimported name `timedelta` while evaluating
its first statement, so it never reports counts and never deletes a Reading
or an Invoice (the error branch returns no new state). -/
theorem cleanup_timedelta_name_error (db : DB) (now days_old : Nat) (dry_run : Bool) :
    cleanup_old_data db now days_old dry_run = .error (.nameError "timedelta") := by
  unfold cleanup_old_data
  rw [if_neg (by decide), if_pos (by decide)]

/-! ## C3 — empty period is a hard failure -/

/-- C3: with zero matching Readings the calculator returns the empty marker
`(0, [])`, and invoice creation turns it into a hard `EmptyPeriod` failure:
no state is committed, so no zero-amount Invoice and no line items are ever
persisted for such a period. -/
theorem empty_period_hard_failure (db : DB) (now y lid od do_ : Nat)
    (h : periodFilter db lid od do_ = []) :
    calculate_invoice_amount db lid od do_ = (0, []) ∧
    create_invoice db now y lid od do_ = .error .emptyPeriod := by
  have hc : calculate_invoice_amount db lid od do_ = (0, []) := by
    unfold calculate_invoice_amount
    rw [h]
    simp [sortByTs]
  refine ⟨hc, ?_⟩
  unfold create_invoice
  rw [hc]
  simp

/-- Witness for C3: a database holding a reading outside the requested
window still yields the empty marker and the `EmptyPeriod` error. -/
theorem empty_period_hard_failure_witness :
    periodFilter
      { stranke := [], lokacije := [{ id := 1, stranka_id := 1 }],
        meritve := [{ id := 1, lokacija_id := 1, casovni_zig := 500,
                      poraba_kwh := 100000, dinamicna_cena_eur_kwh := 15000,
                      created_at := 0 }],
        racuni := [], postavke := [], next_meritev_id := 2, next_racun_id := 1,
        next_postavka_id := 1 } 1 0 100 = [] ∧
    create_invoice
      { stranke := [], lokacije := [{ id := 1, stranka_id := 1 }],
        meritve := [{ id := 1, lokacija_id := 1, casovni_zig := 500,
                      poraba_kwh := 100000, dinamicna_cena_eur_kwh := 15000,
                      created_at := 0 }],
        racuni := [], postavke := [], next_meritev_id := 2, next_racun_id := 1,
        next_postavka_id := 1 } 0 2025 1 0 100 = .error .emptyPeriod :=
  ⟨by decide, (empty_period_hard_failure _ 0 2025 1 0 100 (by decide)).2⟩

/-! ## C2 — per-item rounding before summation -/

/-- C2: over a non-empty matched Reading set, every line item's amount is
`round(consumption * price, 2)` on that Reading's own captured values, the
invoice total is `round(sum of the already-rounded line amounts, 2)`, and
that final rounding is the identity — the total literally is the sum of the
per-item rounded amounts, never a rounding of the raw products' sum. -/
theorem invoice_rounding_policy (db : DB) (lid od do_ : Nat)
    (h : periodFilter db lid od do_ ≠ []) :
    (∀ it ∈ (calculate_invoice_amount db lid od do_).2,
        it.znesek = rhe (it.poraba_kwh * it.cena_eur_kwh) (10 ^ 7) ∧
        ∃ m ∈ db.meritve,
          m.lokacija_id = lid ∧ od ≤ m.casovni_zig ∧ m.casovni_zig ≤ do_ ∧
          it.poraba_kwh = m.poraba_kwh ∧ it.cena_eur_kwh = m.dinamicna_cena_eur_kwh) ∧
    (calculate_invoice_amount db lid od do_).1 =
      rhe (((calculate_invoice_amount db lid od do_).2.map (fun it => it.znesek)).sum) 1 ∧
    (calculate_invoice_amount db lid od do_).1 =
      ((calculate_invoice_amount db lid od do_).2.map (fun it => it.znesek)).sum := by
  have hs : (sortByTs (periodFilter db lid od do_)).isEmpty = false := by
    rw [List.isEmpty_eq_false_iff_exists_mem]
    obtain ⟨m, hm⟩ := List.exists_mem_of_ne_nil _ h
    exact ⟨m, mem_sortByTs.mpr hm⟩
  have hc : calculate_invoice_amount db lid od do_ =
      (rhe (((sortByTs (periodFilter db lid od do_)).map lineOf).map
          (fun it => it.znesek)).sum 1,
       (sortByTs (periodFilter db lid od do_)).map lineOf) := by
    simp only [calculate_invoice_amount, hs, Bool.false_eq_true, if_false]
  rw [hc]
  refine ⟨?_, rfl, ?_⟩
  · intro it hit
    rw [List.mem_map] at hit
    obtain ⟨m, hm, rfl⟩ := hit
    refine ⟨rfl, m, ?_, ?_, ?_, ?_, rfl, rfl⟩
    · exact (List.mem_filter.mp (mem_sortByTs.mp hm)).1
    all_goals
      have hp := (List.mem_filter.mp (mem_sortByTs.mp hm)).2
      simp only [Bool.and_eq_true, beq_iff_eq, decide_eq_true_eq] at hp
    · exact hp.1.1
    · exact hp.1.2
    · exact hp.2
  · exact rhe_one _

/-- Witness for C2, the spec's Scenario A: readings (10.0000 kWh, 0.15000)
and (5.0000 kWh, 0.20000) give line amounts 1.50 and 1.00 and total 2.50. -/
theorem invoice_rounding_policy_witness :
    periodFilter
      { stranke := [], lokacije := [{ id := 1, stranka_id := 1 }],
        meritve :=
          [{ id := 1, lokacija_id := 1, casovni_zig := 10, poraba_kwh := 100000,
             dinamicna_cena_eur_kwh := 15000, created_at := 0 },
           { id := 2, lokacija_id := 1, casovni_zig := 20, poraba_kwh := 50000,
             dinamicna_cena_eur_kwh := 20000, created_at := 0 }],
        racuni := [], postavke := [], next_meritev_id := 3, next_racun_id := 1,
        next_postavka_id := 1 } 1 0 100 ≠ [] ∧
    (calculate_invoice_amount
      { stranke := [], lokacije := [{ id := 1, stranka_id := 1 }],
        meritve :=
          [{ id := 1, lokacija_id := 1, casovni_zig := 10, poraba_kwh := 100000,
             dinamicna_cena_eur_kwh := 15000, created_at := 0 },
           { id := 2, lokacija_id := 1, casovni_zig := 20, poraba_kwh := 50000,
             dinamicna_cena_eur_kwh := 20000, created_at := 0 }],
        racuni := [], postavke := [], next_meritev_id := 3, next_racun_id := 1,
        next_postavka_id := 1 } 1 0 100).1 =
      ((calculate_invoice_amount
      { stranke := [], lokacije := [{ id := 1, stranka_id := 1 }],
        meritve :=
          [{ id := 1, lokacija_id := 1, casovni_zig := 10, poraba_kwh := 100000,
             dinamicna_cena_eur_kwh := 15000, created_at := 0 },
           { id := 2, lokacija_id := 1, casovni_zig := 20, poraba_kwh := 50000,
             dinamicna_cena_eur_kwh := 20000, created_at := 0 }],
        racuni := [], postavke := [], next_meritev_id := 3, next_racun_id := 1,
        next_postavka_id := 1 } 1 0 100).2.map (fun it => it.znesek)).sum :=
  ⟨by decide, (invoice_rounding_policy _ 1 0 100 (by decide)).2.2⟩

/-- Scenario A evaluated: the items round to 150 and 100 cents and the total
is exactly their sum, 250 cents. -/
example :
    (calculate_invoice_amount
      { stranke := [], lokacije := [{ id := 1, stranka_id := 1 }],
        meritve :=
          [{ id := 1, lokacija_id := 1, casovni_zig := 10, poraba_kwh := 100000,
             dinamicna_cena_eur_kwh := 15000, created_at := 0 },
           { id := 2, lokacija_id := 1, casovni_zig := 20, poraba_kwh := 50000,
             dinamicna_cena_eur_kwh := 20000, created_at := 0 }],
        racuni := [], postavke := [], next_meritev_id := 3, next_racun_id := 1,
        next_postavka_id := 1 } 1 0 100).1 = 250 := by decide

/-! ## C7 — the statistics window is closed at the right end, not open -/

/-- Counterexample to C7: with a single reading whose timestamp equals the
window end (ts = 10 in window [0, 10]), the aggregator counts it
(`st_meritev = 1`), while the claimed closed-open window `start <= ts < end`
matches no reading at all. -/
theorem statistics_window_cex :
    (calculate_statistics
      { stranke := [], lokacije := [{ id := 1, stranka_id := 1 }],
        meritve := [{ id := 1, lokacija_id := 1, casovni_zig := 10,
                      poraba_kwh := 100000, dinamicna_cena_eur_kwh := 15000,
                      created_at := 0 }],
        racuni := [], postavke := [], next_meritev_id := 2, next_racun_id := 1,
        next_postavka_id := 1 } 1 0 10).st_meritev = 1 ∧
    (List.filter
      (fun m => m.lokacija_id == 1 && decide (0 ≤ m.casovni_zig) &&
                decide (m.casovni_zig < 10))
      [({ id := 1, lokacija_id := 1, casovni_zig := 10, poraba_kwh := 100000,
          dinamicna_cena_eur_kwh := 15000, created_at := 0 } : Meritev)]).length = 0 := by
  decide

/-- C7 amended: the Statistics Aggregator includes exactly the Readings with
`start <= timestamp <= end` — the window is closed at both ends, so a
Reading at exactly the window end is included; every aggregate (count and the
consumption/price statistics) is computed from precisely that closed-window
reading set. -/
theorem statistics_closed_window (db : DB) (lid od do_ : Nat) :
    (calculate_statistics db lid od do_).st_meritev =
      (periodFilter db lid od do_).length ∧
    (∀ m ∈ db.meritve,
       (m ∈ periodFilter db lid od do_ ↔
          m.lokacija_id = lid ∧ od ≤ m.casovni_zig ∧ m.casovni_zig ≤ do_)) ∧
    calculate_statistics db lid od do_ =
      calculate_statistics { db with meritve := periodFilter db lid od do_ } lid od do_ := by
  have hpf : periodFilter { db with meritve := periodFilter db lid od do_ } lid od do_ =
      periodFilter db lid od do_ := by
    simp only [periodFilter, List.filter_filter]
    congr 1
    funext m
    rw [Bool.and_self]
  refine ⟨?_, ?_, ?_⟩
  · by_cases hemp : (periodFilter db lid od do_).isEmpty
    · rw [List.isEmpty_iff] at hemp
      simp [calculate_statistics, hemp]
    · rw [Bool.not_eq_true] at hemp
      simp only [calculate_statistics, hemp, Bool.false_eq_true, if_false]
  · intro m hm
    rw [periodFilter, List.mem_filter]
    simp only [Bool.and_eq_true, beq_iff_eq, decide_eq_true_eq]
    tauto
  · simp only [calculate_statistics, hpf]

/-! ## C5 — CSV ingestion is all-or-nothing with capped, row-numbered errors -/

/-- C5: when the target location exists and the batch has validation errors,
CSV ingestion fails as a whole: `success = false`, `imported_count = 0`, the
surfaced errors are the first (at most) 10 validation messages, the state is
returned unchanged (zero Readings written, none deleted even with
`replace_existing`), and the message for the record at 0-based index `i`
carries the human-facing row number `i + 2`. -/
theorem csv_batch_all_or_nothing (db : DB) (now : Nat) (rows : List CsvRow)
    (lid : Nat) (repl : Bool)
    (hlok : lokExists db lid = true)
    (herr : validate_csv_data rows ≠ []) :
    (import_csv_to_database db now rows lid repl).1.success = false ∧
    (import_csv_to_database db now rows lid repl).1.imported_count = 0 ∧
    (import_csv_to_database db now rows lid repl).1.errors =
      (validate_csv_data rows).take 10 ∧
    (import_csv_to_database db now rows lid repl).1.errors.length ≤ 10 ∧
    (import_csv_to_database db now rows lid repl).2 = db ∧
    (∀ i r, rows.get? i = some r → rowErrors r ≠ [] →
       rowMessage i r ∈ validate_csv_data rows) := by
  have hne : (validate_csv_data rows).isEmpty = false := by
    rw [List.isEmpty_eq_false_iff_exists_mem]
    exact List.exists_mem_of_ne_nil _ herr
  have himp : import_csv_to_database db now rows lid repl =
      ({ success := false, message := "Napake v podatkih", imported_count := 0
         errors := (validate_csv_data rows).take 10 }, db) := by
    simp only [import_csv_to_database, hlok, hne]
    norm_num
  refine ⟨by rw [himp], by rw [himp], by rw [himp], ?_, by rw [himp], ?_⟩
  · rw [himp]
    simpa using List.length_take_le 10 (validate_csv_data rows)
  · intro i r hget hre
    have hrows : rows.isEmpty = false := by
      cases rows with
      | nil => simp at hget
      | cons x xs => rfl
    have hrne : (rowErrors r).isEmpty = false := by
      cases hh : rowErrors r with
      | nil => exact absurd hh hre
      | cons a l => rfl
    unfold validate_csv_data
    rw [hrows]
    simp only [Bool.false_eq_true, if_false]
    rw [List.mem_filterMap]
    refine ⟨(i, r), List.mem_enum_iff_get?.mpr hget, ?_⟩
    rw [hrne]
    simp

/-- Witness for C5, the spec's Scenario B: three records with a negative
consumption in the middle one give `success = false`, `imported_count = 0`,
exactly one error naming row 3 (0-based record index 1, plus header offset),
and an unchanged reading set. -/
theorem csv_batch_all_or_nothing_witness :
    (import_csv_to_database baseDb 0 scenarioBRows 1 false).1.success = false ∧
    (import_csv_to_database baseDb 0 scenarioBRows 1 false).1.imported_count = 0 ∧
    (import_csv_to_database baseDb 0 scenarioBRows 1 false).2 = baseDb ∧
    validate_csv_data scenarioBRows = ["Vrstica 3: poraba ne more biti negativna"] ∧
    rowMessage 1 { casovni_zig := some 2, poraba_kwh := some (-10000),
                   dinamicna_cena_eur_kwh := some 15000 } ∈
      validate_csv_data scenarioBRows :=
  ⟨(csv_batch_all_or_nothing baseDb 0 scenarioBRows 1 false (by decide) (by decide)).1,
   (csv_batch_all_or_nothing baseDb 0 scenarioBRows 1 false (by decide) (by decide)).2.1,
   (csv_batch_all_or_nothing baseDb 0 scenarioBRows 1 false (by decide) (by decide)).2.2.2.2.1,
   by decide,
   (csv_batch_all_or_nothing baseDb 0 scenarioBRows 1 false (by decide) (by decide)).2.2.2.2.2
     1 _ (by decide) (by decide)⟩

/-! ## C1 — duplicate (Location, timestamp) protection -/

/-- Accepted rows of the tolerant bulk loop never carry a key that the base
table already holds: each accepted record passed the duplicate probe against
the table plus the earlier pending rows. -/
theorem bulkFold_key_free (base : List Meritev) (now L T : Nat)
    (hbase : dupProbe base L T = true) :
    ∀ (batch : List MeritevCreate) (st : BulkState),
      (∀ x ∈ st.acc, ¬ (x.lokacija_id = L ∧ x.casovni_zig = T)) →
      ∀ x ∈ (batch.foldl (bulkStep base now) st).acc,
        ¬ (x.lokacija_id = L ∧ x.casovni_zig = T) := by
  intro batch
  induction batch with
  | nil => intro st hst; exact hst
  | cons m rest ih =>
      intro st hst
      rw [List.foldl_cons]
      apply ih
      by_cases h1 : dupProbe (base ++ st.acc) m.lokacija_id m.casovni_zig = true
      · simpa [bulkStep, h1] using hst
      · by_cases h2 : (m.poraba_kwh < 0 || m.dinamicna_cena_eur_kwh ≤ 0) = true
        · simpa [bulkStep, h1, h2] using hst
        · intro x hx
          simp only [bulkStep, h1, h2, Bool.false_eq_true, if_false] at hx
          rw [List.mem_append] at hx
          rcases hx with hx | hx
          · exact hst x hx
          · rw [List.mem_singleton] at hx
            subst hx
            rintro ⟨hL, hT⟩
            simp only [storeMeritev] at hL hT
            apply h1
            subst hL
            subst hT
            unfold dupProbe at hbase ⊢
            rw [List.any_append, hbase]
            rfl

/-- C1 amended: the single-record path rejects a duplicate
(Location, timestamp) with `DuplicateReading` and commits nothing, and the
tolerant bulk path never adds a reading whose key the table already holds
(the multiplicity of any already-present key is unchanged).  The CSV
ingestion path, however, performs no duplicate check at all — see the
counterexample — so the system-wide at-most-one invariant does not hold. -/
theorem duplicate_reading_guard (db : DB) (now : Nat) (m : MeritevCreate)
    (batch : List MeritevCreate) (L T : Nat) :
    (lokExists db m.lokacija_id = true →
       dupProbe db.meritve m.lokacija_id m.casovni_zig = true →
       create_meritev db now m = .error .duplicateReading) ∧
    (dupProbe db.meritve L T = true →
       ∀ db' res, create_bulk_meritve db now batch = .ok (db', res) →
         (db'.meritve.filter (fun x => x.lokacija_id == L && x.casovni_zig == T)).length =
         (db.meritve.filter (fun x => x.lokacija_id == L && x.casovni_zig == T)).length) := by
  constructor
  · intro hlok hdup
    simp [create_meritev, hlok, hdup]
  · intro hdup db' res hok
    have hfree : ∀ x ∈ (batch.foldl (bulkStep db.meritve now)
        { acc := [], nextId := db.next_meritev_id, sc := 0, ec := 0, errs := [] }).acc,
        ¬ (x.lokacija_id = L ∧ x.casovni_zig = T) :=
      bulkFold_key_free db.meritve now L T hdup batch _ (by intro x hx; cases hx)
    unfold create_bulk_meritve at hok
    split_ifs at hok
    simp only [Except.ok.injEq, Prod.mk.injEq] at hok
    obtain ⟨hdb, -⟩ := hok
    subst hdb
    split
    · rw [List.filter_append]
      have : List.filter (fun x => x.lokacija_id == L && x.casovni_zig == T)
          (batch.foldl (bulkStep db.meritve now)
            { acc := [], nextId := db.next_meritev_id, sc := 0, ec := 0, errs := [] }).acc = [] := by
        rw [List.filter_eq_nil]
        intro x hx
        have := hfree x hx
        simp only [Bool.and_eq_true, beq_iff_eq]
        tauto
      rw [this, List.append_nil]
    · rfl

/-- Counterexample to C1: importing a CSV record whose (location, timestamp)
key equals a stored Reading's key succeeds (`success = true`,
`imported_count = 1`) and leaves two Readings with the same
(location 1, timestamp 50) key — the CSV path neither probes for duplicates
nor is stopped by any storage constraint (the `meritve` table declares
none). -/
theorem csv_duplicate_insert_cex :
    (import_csv_to_database dbWithReading 0 [dupCsvRow] 1 false).1.success = true ∧
    (import_csv_to_database dbWithReading 0 [dupCsvRow] 1 false).1.imported_count = 1 ∧
    ((import_csv_to_database dbWithReading 0 [dupCsvRow] 1 false).2.meritve.filter
       (fun x => x.lokacija_id == 1 && x.casovni_zig == 50)).length = 2 := by
  decide

/-- Witness for C1's amended statement: the stored (1, 50) reading makes the
single-record path fail with `DuplicateReading`, and a Scenario-C bulk batch
containing that key leaves its multiplicity unchanged. -/
theorem duplicate_reading_guard_witness :
    create_meritev dbWithReading 0 dupCreate = .error ApiError.duplicateReading ∧
    (∀ db' res, create_bulk_meritve dbWithReading 0 scenarioCBatch = .ok (db', res) →
       (db'.meritve.filter (fun x => x.lokacija_id == 1 && x.casovni_zig == 50)).length =
       (dbWithReading.meritve.filter
         (fun x => x.lokacija_id == 1 && x.casovni_zig == 50)).length) :=
  ⟨(duplicate_reading_guard dbWithReading 0 dupCreate scenarioCBatch 1 50).1
     (by decide) (by decide),
   (duplicate_reading_guard dbWithReading 0 dupCreate scenarioCBatch 1 50).2 (by decide)⟩

/-! ## C8 — the 10,000 batch cap exists only on the bulk-create path -/

/-- Validation accepts a batch made of replicas of one clean row. -/
theorem validate_replicate_good {n : Nat} (hn : n ≠ 0) {r : CsvRow}
    (hr : rowErrors r = []) :
    validate_csv_data (List.replicate n r) = [] := by
  unfold validate_csv_data
  have hne : (List.replicate n r).isEmpty = false := by
    cases n with
    | zero => exact absurd rfl hn
    | succ k => rfl
  rw [hne]
  simp only [Bool.false_eq_true, if_false]
  rw [List.filterMap_eq_nil]
  intro p hp
  have hp2 : p.2 = r := by
    have hg := List.mem_enum_iff_get?.mp hp
    exact List.eq_of_mem_replicate (List.get?_mem hg)
  simp [hp2, hr]

/-- Conversion maps a replicated parsable row to a replicated record. -/
theorem filterMap_replicate {α β : Type} (f : α → Option β) (a : α) (b : β)
    (h : f a = some b) :
    ∀ n, (List.replicate n a).filterMap f = List.replicate n b := by
  intro n
  induction n with
  | zero => rfl
  | succ k ih =>
      rw [List.replicate_succ, List.filterMap_cons, h, List.replicate_succ, ih]

/-- Counterexample to C8: a CSV batch of 10,001 valid records sails through —
ingestion reports `success = true` with `imported_count = 10001` instead of
failing fast with `BatchTooLarge`; the cap is only checked on the bulk-create
endpoint, not on the CSV ingestion path. -/
theorem csv_batch_cap_missing_cex :
    (List.replicate 10001 goodCsvRow).length > 10000 ∧
    (import_csv_to_database baseDb 0 (List.replicate 10001 goodCsvRow) 1 false).1.success
      = true ∧
    (import_csv_to_database baseDb 0 (List.replicate 10001 goodCsvRow) 1 false).1.imported_count
      = 10001 := by
  have hval : validate_csv_data (List.replicate 10001 goodCsvRow) = [] :=
    validate_replicate_good (by norm_num) (by decide)
  have hconv : (List.replicate 10001 goodCsvRow).filterMap (csvConvert 1) =
      List.replicate 10001
        ({ lokacija_id := 1, casovni_zig := 1, poraba_kwh := 10000
           dinamicna_cena_eur_kwh := 20000 } : MeritevCreate) :=
    filterMap_replicate _ _ _ (by decide) _
  refine ⟨by norm_num, ?_⟩
  have hout : import_csv_to_database baseDb 0 (List.replicate 10001 goodCsvRow) 1 false =
      ({ success := true
         message := "Uspešno uvoženih " ++ toString (10001 : Nat) ++ " meritev"
         imported_count := 10001, errors := [] },
       { baseDb with
           meritve := baseDb.meritve ++
             (((List.replicate 10001
                 ({ lokacija_id := 1, casovni_zig := 1, poraba_kwh := 10000
                    dinamicna_cena_eur_kwh := 20000 } : MeritevCreate)).enumFrom
                 baseDb.next_meritev_id).map (fun p => storeMeritev p.1 0 p.2))
           next_meritev_id := baseDb.next_meritev_id + 10001 }) := by
    have hlok : lokExists baseDb 1 = true := by decide
    simp only [import_csv_to_database, hval, hconv, List.length_replicate, hlok]
    norm_num
  rw [hout]
  exact ⟨rfl, rfl⟩

/-- C8 amended: only the bulk-create endpoint enforces the 10,000-record cap;
there any larger batch fails fast with `BatchTooLarge` and nothing is
processed (the error branch precedes every check and write).  CSV ingestion
has no batch-size cap. -/
theorem bulk_batch_cap (db : DB) (now : Nat) (batch : List MeritevCreate)
    (h : batch.length > 10000) :
    create_bulk_meritve db now batch = .error .batchTooLarge := by
  have hne : batch.isEmpty = false := by
    cases batch with
    | nil => simp at h
    | cons x xs => rfl
  unfold create_bulk_meritve
  rw [hne]
  simp only [Bool.false_eq_true, if_false]
  rw [if_pos h]

/-- Witness for C8's amended statement: 10,001 bulk-create records are
rejected with `BatchTooLarge`. -/
theorem bulk_batch_cap_witness :
    create_bulk_meritve baseDb 0 (List.replicate 10001 plainRecord) =
      .error ApiError.batchTooLarge :=
  bulk_batch_cap baseDb 0 _ (by norm_num [List.length_replicate])

/-! ## C6 — the tolerant bulk path: independence, exact commit, capped report -/

/-- A value-invalid record is rejected by the loop: the pending rows, the
next key and the success counter are untouched and the error counter grows
by one (whether the record trips the duplicate probe or the value check). -/
theorem bulkStep_invalid (base : List Meritev) (now : Nat) (st : BulkState)
    (m : MeritevCreate)
    (hm : m.poraba_kwh < 0 ∨ m.dinamicna_cena_eur_kwh ≤ 0) :
    (bulkStep base now st m).acc = st.acc ∧
    (bulkStep base now st m).nextId = st.nextId ∧
    (bulkStep base now st m).sc = st.sc ∧
    (bulkStep base now st m).ec = st.ec + 1 := by
  by_cases h1 : dupProbe (base ++ st.acc) m.lokacija_id m.casovni_zig = true
  · simp [bulkStep, h1]
  · have h2 : (m.poraba_kwh < 0 || m.dinamicna_cena_eur_kwh ≤ 0) = true := by
      rcases hm with h | h <;> simp [h]
    simp [bulkStep, h1, h2]

/-- Every record processed by the loop lands in exactly one counter. -/
theorem bulkFold_sum (base : List Meritev) (now : Nat) :
    ∀ (batch : List MeritevCreate) (st : BulkState),
      (batch.foldl (bulkStep base now) st).sc + (batch.foldl (bulkStep base now) st).ec =
        st.sc + st.ec + batch.length := by
  intro batch
  induction batch with
  | nil => intro st; simp
  | cons m rest ih =>
      intro st
      rw [List.foldl_cons]
      rw [ih]
      have : (bulkStep base now st m).sc + (bulkStep base now st m).ec = st.sc + st.ec + 1 := by
        by_cases h1 : dupProbe (base ++ st.acc) m.lokacija_id m.casovni_zig = true
        · simp [bulkStep, h1]; omega
        · by_cases h2 : (m.poraba_kwh < 0 || m.dinamicna_cena_eur_kwh ≤ 0) = true
          · simp [bulkStep, h1, h2]; omega
          · simp [bulkStep, h1, h2]; omega
      rw [this]
      simp [List.length_cons]
      omega

/-- The success counter always equals the number of pending rows. -/
theorem bulkFold_sc_acc (base : List Meritev) (now : Nat) :
    ∀ (batch : List MeritevCreate) (st : BulkState),
      st.sc = st.acc.length →
      (batch.foldl (bulkStep base now) st).sc =
        (batch.foldl (bulkStep base now) st).acc.length := by
  intro batch
  induction batch with
  | nil => intro st h; exact h
  | cons m rest ih =>
      intro st h
      rw [List.foldl_cons]
      apply ih
      by_cases h1 : dupProbe (base ++ st.acc) m.lokacija_id m.casovni_zig = true
      · simpa [bulkStep, h1] using h
      · by_cases h2 : (m.poraba_kwh < 0 || m.dinamicna_cena_eur_kwh ≤ 0) = true
        · simpa [bulkStep, h1, h2] using h
        · simp [bulkStep, h1, h2, h]

/-- Every pending row either was pending already or snapshots a batch record
that passed the value checks. -/
theorem bulkFold_acc_mem (base : List Meritev) (now : Nat) :
    ∀ (batch : List MeritevCreate) (st : BulkState),
      ∀ x ∈ (batch.foldl (bulkStep base now) st).acc,
        x ∈ st.acc ∨
        (0 ≤ x.poraba_kwh ∧ 0 < x.dinamicna_cena_eur_kwh ∧
         ∃ m ∈ batch, x.lokacija_id = m.lokacija_id ∧ x.casovni_zig = m.casovni_zig ∧
           x.poraba_kwh = m.poraba_kwh ∧
           x.dinamicna_cena_eur_kwh = m.dinamicna_cena_eur_kwh) := by
  intro batch
  induction batch with
  | nil => intro st x hx; exact Or.inl hx
  | cons m rest ih =>
      intro st x hx
      rw [List.foldl_cons] at hx
      rcases ih _ x hx with hx' | hx'
      · by_cases h1 : dupProbe (base ++ st.acc) m.lokacija_id m.casovni_zig = true
        · rw [show (bulkStep base now st m).acc = st.acc by simp [bulkStep, h1]] at hx'
          exact Or.inl hx'
        · by_cases h2 : (m.poraba_kwh < 0 || m.dinamicna_cena_eur_kwh ≤ 0) = true
          · rw [show (bulkStep base now st m).acc = st.acc by simp [bulkStep, h1, h2]] at hx'
            exact Or.inl hx'
          · rw [show (bulkStep base now st m).acc = st.acc ++ [storeMeritev st.nextId now m]
                  by simp [bulkStep, h1, h2]] at hx'
            rw [List.mem_append] at hx'
            rcases hx' with hx' | hx'
            · exact Or.inl hx'
            · rw [List.mem_singleton] at hx'
              subst hx'
              simp only [Bool.or_eq_true, not_or, decide_eq_true_eq] at h2
              right
              refine ⟨?_, ?_, m, List.mem_cons_self m rest, rfl, rfl, rfl, rfl⟩
              · simp only [storeMeritev]
                push_neg at h2
                omega
              · simp only [storeMeritev]
                push_neg at h2
                omega
      · right
        obtain ⟨ha, hb, m', hm', hrest⟩ := hx'
        exact ⟨ha, hb, m', List.mem_cons_of_mem m hm', hrest⟩

/-- Two loop states that agree on pending rows, next key and success count
keep agreeing, with a constant error-count offset. -/
theorem bulkFold_agree (base : List Meritev) (now : Nat) :
    ∀ (batch : List MeritevCreate) (st1 st2 : BulkState),
      st1.acc = st2.acc → st1.nextId = st2.nextId → st1.sc = st2.sc →
      (batch.foldl (bulkStep base now) st1).acc =
        (batch.foldl (bulkStep base now) st2).acc ∧
      (batch.foldl (bulkStep base now) st1).nextId =
        (batch.foldl (bulkStep base now) st2).nextId ∧
      (batch.foldl (bulkStep base now) st1).sc =
        (batch.foldl (bulkStep base now) st2).sc ∧
      (batch.foldl (bulkStep base now) st1).ec + st2.ec =
        (batch.foldl (bulkStep base now) st2).ec + st1.ec := by
  intro batch
  induction batch with
  | nil =>
      intro st1 st2 h1 h2 h3
      simp only [List.foldl_nil]
      exact ⟨h1, h2, h3, by omega⟩
  | cons m rest ih =>
      intro st1 st2 hacc hnext hsc
      rw [List.foldl_cons, List.foldl_cons]
      have hstep : (bulkStep base now st1 m).acc = (bulkStep base now st2 m).acc ∧
          (bulkStep base now st1 m).nextId = (bulkStep base now st2 m).nextId ∧
          (bulkStep base now st1 m).sc = (bulkStep base now st2 m).sc ∧
          (bulkStep base now st1 m).ec + st2.ec = (bulkStep base now st2 m).ec + st1.ec := by
        by_cases h1 : dupProbe (base ++ st1.acc) m.lokacija_id m.casovni_zig = true
        · have h1' : dupProbe (base ++ st2.acc) m.lokacija_id m.casovni_zig = true := by
            rw [← hacc]; exact h1
          simp [bulkStep, h1, h1', hacc]; omega
        · have h1' : ¬ dupProbe (base ++ st2.acc) m.lokacija_id m.casovni_zig = true := by
            rw [← hacc]; exact h1
          by_cases h2 : (m.poraba_kwh < 0 || m.dinamicna_cena_eur_kwh ≤ 0) = true
          · simp [bulkStep, h1, h1', h2, hacc]; omega
          · simp [bulkStep, h1, h1', h2, hacc, hnext, hsc]; omega
      obtain ⟨ha, hn, hs, he⟩ := ih (bulkStep base now st1 m) (bulkStep base now st2 m)
        hstep.1 hstep.2.1 hstep.2.2.1
      exact ⟨ha, hn, hs, by omega⟩

/-- Inversion of a successful bulk call: the reported counters, the capped
error list and the committed state all come from the loop's final state. -/
theorem create_bulk_ok_inv (db : DB) (now : Nat) (batch : List MeritevCreate)
    (db' : DB) (res : BulkResult)
    (h : create_bulk_meritve db now batch = .ok (db', res)) :
    res.success_count = (batch.foldl (bulkStep db.meritve now)
      { acc := [], nextId := db.next_meritev_id, sc := 0, ec := 0, errs := [] }).sc ∧
    res.error_count = (batch.foldl (bulkStep db.meritve now)
      { acc := [], nextId := db.next_meritev_id, sc := 0, ec := 0, errs := [] }).ec ∧
    db' = (if (batch.foldl (bulkStep db.meritve now)
            { acc := [], nextId := db.next_meritev_id, sc := 0, ec := 0, errs := [] }).sc > 0 then
        { db with
            meritve := db.meritve ++ (batch.foldl (bulkStep db.meritve now)
              { acc := [], nextId := db.next_meritev_id, sc := 0, ec := 0, errs := [] }).acc
            next_meritev_id := (batch.foldl (bulkStep db.meritve now)
              { acc := [], nextId := db.next_meritev_id, sc := 0, ec := 0, errs := [] }).nextId }
      else db) := by
  simp only [create_bulk_meritve] at h
  split_ifs at h with hA hB hC hD
  · simp only [Except.ok.injEq, Prod.mk.injEq] at h
    obtain ⟨h1, h2⟩ := h
    subst h2
    refine ⟨rfl, rfl, ?_⟩
    rw [if_pos hD]
    exact h1.symm
  · simp only [Except.ok.injEq, Prod.mk.injEq] at h
    obtain ⟨h1, h2⟩ := h
    subst h2
    refine ⟨rfl, rfl, ?_⟩
    rw [if_neg hD]
    exact h1.symm

/-- Dropping a value-invalid record from anywhere in the batch changes
nothing about the loop outcome except removing one counted error: the
pending rows, next key and success count are identical. -/
theorem bulk_splice (db : DB) (now : Nat) (b1 : List MeritevCreate)
    (m : MeritevCreate) (b2 : List MeritevCreate)
    (hm : m.poraba_kwh < 0 ∨ m.dinamicna_cena_eur_kwh ≤ 0) :
    ((b1 ++ m :: b2).foldl (bulkStep db.meritve now)
      { acc := [], nextId := db.next_meritev_id, sc := 0, ec := 0, errs := [] }).acc =
      ((b1 ++ b2).foldl (bulkStep db.meritve now)
        { acc := [], nextId := db.next_meritev_id, sc := 0, ec := 0, errs := [] }).acc ∧
    ((b1 ++ m :: b2).foldl (bulkStep db.meritve now)
      { acc := [], nextId := db.next_meritev_id, sc := 0, ec := 0, errs := [] }).sc =
      ((b1 ++ b2).foldl (bulkStep db.meritve now)
        { acc := [], nextId := db.next_meritev_id, sc := 0, ec := 0, errs := [] }).sc ∧
    ((b1 ++ m :: b2).foldl (bulkStep db.meritve now)
      { acc := [], nextId := db.next_meritev_id, sc := 0, ec := 0, errs := [] }).ec =
      ((b1 ++ b2).foldl (bulkStep db.meritve now)
        { acc := [], nextId := db.next_meritev_id, sc := 0, ec := 0, errs := [] }).ec + 1 := by
  rw [List.foldl_append, List.foldl_append, List.foldl_cons]
  have hmid := bulkStep_invalid db.meritve now
    (b1.foldl (bulkStep db.meritve now)
      { acc := [], nextId := db.next_meritev_id, sc := 0, ec := 0, errs := [] }) m hm
  have hagree := bulkFold_agree db.meritve now b2
    (bulkStep db.meritve now
      (b1.foldl (bulkStep db.meritve now)
        { acc := [], nextId := db.next_meritev_id, sc := 0, ec := 0, errs := [] }) m)
    (b1.foldl (bulkStep db.meritve now)
      { acc := [], nextId := db.next_meritev_id, sc := 0, ec := 0, errs := [] })
    hmid.1 hmid.2.1 hmid.2.2.1
  refine ⟨hagree.1, hagree.2.2.1, ?_⟩
  have he := hagree.2.2.2
  have he2 := hmid.2.2.2
  omega

/-- C6: under the bulk endpoint's guards the call always succeeds as a whole;
every record lands in exactly one of the two counters (no record aborts its
siblings), at most 10 error messages are returned, the commit adds exactly
`success_count` readings and each added reading snapshots a batch record that
passed the value checks, zero successes commit nothing, and removing a
value-invalid record from the batch changes only the error count — the
committed readings and success count are identical. -/
theorem bulk_create_tolerant (db : DB) (now : Nat) (batch : List MeritevCreate)
    (hne : batch ≠ []) (hcap : batch.length ≤ 10000)
    (hlok : batch.all (fun m => lokExists db m.lokacija_id) = true) :
    ∃ db' res, create_bulk_meritve db now batch = .ok (db', res) ∧
      res.success_count + res.error_count = batch.length ∧
      res.errors.length ≤ 10 ∧
      db'.meritve.length = db.meritve.length + res.success_count ∧
      (res.success_count = 0 → db' = db) ∧
      (∀ x ∈ db'.meritve, x ∈ db.meritve ∨
         (0 ≤ x.poraba_kwh ∧ 0 < x.dinamicna_cena_eur_kwh ∧
          ∃ m ∈ batch, x.lokacija_id = m.lokacija_id ∧ x.casovni_zig = m.casovni_zig ∧
            x.poraba_kwh = m.poraba_kwh ∧
            x.dinamicna_cena_eur_kwh = m.dinamicna_cena_eur_kwh)) ∧
      (∀ b1 m b2, batch = b1 ++ m :: b2 →
         (m.poraba_kwh < 0 ∨ m.dinamicna_cena_eur_kwh ≤ 0) →
         ∀ db2 res2, create_bulk_meritve db now (b1 ++ b2) = .ok (db2, res2) →
           db2.meritve = db'.meritve ∧ res2.success_count = res.success_count ∧
           res2.error_count + 1 = res.error_count) := by
  have hne' : batch.isEmpty = false := by
    cases batch with
    | nil => exact absurd rfl hne
    | cons a l => rfl
  have hcap' : ¬ batch.length > 10000 := by omega
  have hform : create_bulk_meritve db now batch = .ok
      ((if (batch.foldl (bulkStep db.meritve now)
            { acc := [], nextId := db.next_meritev_id, sc := 0, ec := 0, errs := [] }).sc > 0 then
          { db with
              meritve := db.meritve ++ (batch.foldl (bulkStep db.meritve now)
                { acc := [], nextId := db.next_meritev_id, sc := 0, ec := 0, errs := [] }).acc
              next_meritev_id := (batch.foldl (bulkStep db.meritve now)
                { acc := [], nextId := db.next_meritev_id, sc := 0, ec := 0, errs := [] }).nextId }
        else db),
       { success_count := (batch.foldl (bulkStep db.meritve now)
           { acc := [], nextId := db.next_meritev_id, sc := 0, ec := 0, errs := [] }).sc
         error_count := (batch.foldl (bulkStep db.meritve now)
           { acc := [], nextId := db.next_meritev_id, sc := 0, ec := 0, errs := [] }).ec
         errors := ((batch.foldl (bulkStep db.meritve now)
           { acc := [], nextId := db.next_meritev_id, sc := 0, ec := 0, errs := [] }).errs).take 10 }) := by
    simp only [create_bulk_meritve, hne', hlok, hcap']
    norm_num
  have hsca : (batch.foldl (bulkStep db.meritve now)
      { acc := [], nextId := db.next_meritev_id, sc := 0, ec := 0, errs := [] }).sc =
      (batch.foldl (bulkStep db.meritve now)
        { acc := [], nextId := db.next_meritev_id, sc := 0, ec := 0, errs := [] }).acc.length :=
    bulkFold_sc_acc db.meritve now batch _ rfl
  refine ⟨_, _, hform, ?_, ?_, ?_, ?_, ?_, ?_⟩
  · have := bulkFold_sum db.meritve now batch
      { acc := [], nextId := db.next_meritev_id, sc := 0, ec := 0, errs := [] }
    simpa using this
  · exact List.length_take_le 10 _
  · by_cases h : (batch.foldl (bulkStep db.meritve now)
        { acc := [], nextId := db.next_meritev_id, sc := 0, ec := 0, errs := [] }).sc > 0
    · rw [if_pos h]
      simp only [List.length_append]
      rw [hsca]
    · have h0 : (batch.foldl (bulkStep db.meritve now)
          { acc := [], nextId := db.next_meritev_id, sc := 0, ec := 0, errs := [] }).sc = 0 := by
        omega
      rw [if_neg h, h0, Nat.add_zero]
  · intro h0
    have : ¬ (batch.foldl (bulkStep db.meritve now)
        { acc := [], nextId := db.next_meritev_id, sc := 0, ec := 0, errs := [] }).sc > 0 := by
      simp only at h0
      omega
    simp only [if_neg this]
  · intro x hx
    by_cases h : (batch.foldl (bulkStep db.meritve now)
        { acc := [], nextId := db.next_meritev_id, sc := 0, ec := 0, errs := [] }).sc > 0
    · simp only [if_pos h] at hx
      rw [List.mem_append] at hx
      rcases hx with hx | hx
      · exact Or.inl hx
      · rcases bulkFold_acc_mem db.meritve now batch _ x hx with h' | h'
        · cases h'
        · exact Or.inr h'
    · simp only [if_neg h] at hx
      exact Or.inl hx
  · intro b1 m b2 hsplit hm db2 res2 hok2
    obtain ⟨hr2sc, hr2ec, hdb2⟩ := create_bulk_ok_inv db now (b1 ++ b2) db2 res2 hok2
    have hsp := bulk_splice db now b1 m b2 hm
    rw [← hsplit] at hsp
    obtain ⟨hspacc, hspsc, hspec⟩ := hsp
    refine ⟨?_, ?_, ?_⟩
    · rw [hdb2]
      by_cases h : (batch.foldl (bulkStep db.meritve now)
          { acc := [], nextId := db.next_meritev_id, sc := 0, ec := 0, errs := [] }).sc > 0
      · rw [if_pos (by omega : ((b1 ++ b2).foldl (bulkStep db.meritve now)
            { acc := [], nextId := db.next_meritev_id, sc := 0, ec := 0, errs := [] }).sc > 0),
           if_pos h]
        simp only [hspacc]
      · rw [if_neg (by omega : ¬ ((b1 ++ b2).foldl (bulkStep db.meritve now)
            { acc := [], nextId := db.next_meritev_id, sc := 0, ec := 0, errs := [] }).sc > 0),
           if_neg h]
    · rw [hr2sc]
      exact hspsc.symm
    · rw [hr2ec, ← hspec]

/-- Witness for C6, the spec's Scenario C: three bulk records with one key
duplicating a stored reading satisfy all of the tolerant-path guarantees. -/
theorem bulk_create_tolerant_witness :
    ∃ db' res, create_bulk_meritve dbWithReading 0 scenarioCBatch = .ok (db', res) ∧
      res.success_count + res.error_count = scenarioCBatch.length ∧
      res.errors.length ≤ 10 ∧
      db'.meritve.length = dbWithReading.meritve.length + res.success_count ∧
      (res.success_count = 0 → db' = dbWithReading) ∧
      (∀ x ∈ db'.meritve, x ∈ dbWithReading.meritve ∨
         (0 ≤ x.poraba_kwh ∧ 0 < x.dinamicna_cena_eur_kwh ∧
          ∃ m ∈ scenarioCBatch, x.lokacija_id = m.lokacija_id ∧
            x.casovni_zig = m.casovni_zig ∧ x.poraba_kwh = m.poraba_kwh ∧
            x.dinamicna_cena_eur_kwh = m.dinamicna_cena_eur_kwh)) ∧
      (∀ b1 m b2, scenarioCBatch = b1 ++ m :: b2 →
         (m.poraba_kwh < 0 ∨ m.dinamicna_cena_eur_kwh ≤ 0) →
         ∀ db2 res2, create_bulk_meritve dbWithReading 0 (b1 ++ b2) = .ok (db2, res2) →
           db2.meritve = db'.meritve ∧ res2.success_count = res.success_count ∧
           res2.error_count + 1 = res.error_count) :=
  bulk_create_tolerant dbWithReading 0 scenarioCBatch (by decide) (by decide) (by decide)

/-- Scenario C evaluated: two records commit, one duplicate is reported. -/
example :
    (create_bulk_meritve dbWithReading 0 scenarioCBatch).toOption.map
      (fun p => (p.2.success_count, p.2.error_count, p.1.meritve.length)) =
      some (2, 1, 3) := by decide

/-! ## C9 — invoice status lifecycle -/

theorem statusRank_le_two (s : String) : statusRank s ≤ 2 := by
  unfold statusRank
  split_ifs <;> norm_num

theorem statusRank_le_one (s : String) (h : s ≠ "POSLAN") : statusRank s ≤ 1 := by
  unfold statusRank
  rw [if_neg h]
  split_ifs <;> norm_num

theorem forwardStep_refl (l : List Racun) : forwardStep l l :=
  ⟨rfl, fun _ _ _ => ⟨rfl, le_refl _⟩⟩

/-- Primary-key uniqueness makes rows with equal ids equal. -/
theorem pairwise_id_eq {l : List Racun}
    (huniq : l.Pairwise (fun a b => a.id ≠ b.id))
    {a b : Racun} (ha : a ∈ l) (hb : b ∈ l) (h : a.id = b.id) : a = b := by
  by_contra hne
  have hsymm : Symmetric (fun a b : Racun => a.id ≠ b.id) :=
    fun x y hxy he => hxy he.symm
  exact List.Pairwise.forall hsymm huniq ha hb hne h

/-- Updating only the row with the probed id moves statuses only forward,
provided the update does not lower the found row's rank. -/
theorem mapUpdate_forwardStep (l : List Racun) (rid : Nat) (r0 : Racun)
    (huniq : l.Pairwise (fun a b => a.id ≠ b.id))
    (hmem : r0 ∈ l) (hr0 : r0.id = rid) (upd : Racun → Racun)
    (hupd_id : (upd r0).id = r0.id)
    (hupd_rank : statusRank r0.status ≤ statusRank (upd r0).status) :
    forwardStep l (l.map (fun r => if r.id == rid then upd r else r)) := by
  refine ⟨by rw [List.length_map], ?_⟩
  intro i h h'
  simp only [List.get_map]
  by_cases hid : ((l.get ⟨i, h⟩).id == rid) = true
  · have heq : l.get ⟨i, h⟩ = r0 :=
      pairwise_id_eq huniq (l.get_mem i h) hmem (by rw [beq_iff_eq] at hid; rw [hid, hr0])
    have hid' : (r0.id == rid) = true := by rw [beq_iff_eq]; exact hr0
    rw [heq, if_pos hid']
    exact ⟨hupd_id, hupd_rank⟩
  · rw [if_neg hid]
    exact ⟨rfl, le_refl _⟩

/-- The document invariant survives a single-row update whose result either
is not `POSLAN` or keeps a recorded document. -/
theorem mapUpdate_pdfInv (l : List Racun) (rid : Nat) (upd : Racun → Racun)
    (hinv : ∀ r ∈ l, r.status = "POSLAN" → r.pdf_pot.isSome = true)
    (h : ∀ r ∈ l, (r.id == rid) = true →
       (upd r).status = "POSLAN" → (upd r).pdf_pot.isSome = true) :
    ∀ r' ∈ l.map (fun r => if r.id == rid then upd r else r),
      r'.status = "POSLAN" → r'.pdf_pot.isSome = true := by
  intro r' hr'
  obtain ⟨r, hr, rfl⟩ := List.mem_map.mp hr'
  by_cases hid : (r.id == rid) = true
  · simp only [if_pos hid]
    exact h r hr hid
  · simp only [if_neg hid]
    exact hinv r hr

/-- A successful `generate_pdf` call found the invoice and rewrote exactly
its row: document recorded, status forced to `GENERIRAN`. -/
theorem generate_pdf_ok (db : DB) (rid : Nat) (db' : DB) (p : String)
    (hok : generate_pdf db rid = .ok (db', p)) :
    ∃ r0, findRacun db rid = some r0 ∧
      db' = { db with racuni := db.racuni.map (fun r =>
        if r.id == rid then
          { r with pdf_pot := some ("racun_" ++ r0.stevilka_racuna ++ ".pdf")
                   status := "GENERIRAN" }
        else r) } := by
  unfold generate_pdf at hok
  cases hfind : findRacun db rid with
  | none => rw [hfind] at hok; simp at hok
  | some r0 =>
      rw [hfind] at hok
      simp only [Except.ok.injEq, Prod.mk.injEq] at hok
      exact ⟨r0, rfl, hok.1.symm⟩

/-- A successful `send_invoice_email` call found the invoice, required its
recorded document, and rewrote exactly its row's status to `POSLAN`. -/
theorem send_email_ok (db : DB) (rid : Nat) (recipient : Option String)
    (smtpConf smtpOk : Bool) (db' : DB) (b : Bool)
    (hok : send_invoice_email db rid recipient smtpConf smtpOk = .ok (db', b)) :
    ∃ r0, findRacun db rid = some r0 ∧ r0.pdf_pot.isNone = false ∧
      db' = { db with racuni := db.racuni.map (fun r =>
        if r.id == rid then { r with status := "POSLAN" } else r) } := by
  unfold send_invoice_email at hok
  cases hfind : findRacun db rid with
  | none => rw [hfind] at hok; simp at hok
  | some r0 =>
      rw [hfind] at hok
      by_cases hpdf : r0.pdf_pot.isNone = true
      · simp only [hpdf, if_true] at hok
        simp at hok
      · simp only [hpdf, Bool.false_eq_true, if_false] at hok
        cases hlok : db.lokacije.find? (fun l => l.id == r0.lokacija_id) with
        | none => rw [hlok] at hok; simp at hok
        | some lok =>
            rw [hlok] at hok
            simp only [] at hok
            cases hstr : db.stranke.find? (fun s => s.id == lok.stranka_id) with
            | none => rw [hstr] at hok; simp at hok
            | some str =>
                rw [hstr] at hok
                simp only [] at hok
                split_ifs at hok
                simp only [Except.ok.injEq, Prod.mk.injEq] at hok
                refine ⟨r0, rfl, by simp only [Bool.not_eq_true] at hpdf; exact hpdf,
                  hok.1.symm⟩

/-- C9 amended: the guarded operations do move statuses only forward — the
pdf-download endpoint regenerates only when no document is recorded (and a
`POSLAN` invoice always has one), and email sending only promotes to the
terminal `POSLAN` — but the underlying `generate_pdf` operation itself
overwrites any status with `GENERIRAN`, so `POSLAN` is terminal only as long
as `generate_pdf` is not re-invoked on that invoice (see the
counterexample). -/
theorem invoice_status_forward (db : DB) (rid : Nat) (recipient : Option String)
    (smtpConf smtpOk : Bool)
    (hinv : pdfInv db)
    (huniq : db.racuni.Pairwise (fun a b => a.id ≠ b.id)) :
    (∀ db' p, get_racun_pdf db rid = .ok (db', p) →
       forwardStep db.racuni db'.racuni ∧ pdfInv db') ∧
    (∀ db' b, send_invoice_email db rid recipient smtpConf smtpOk = .ok (db', b) →
       forwardStep db.racuni db'.racuni ∧ pdfInv db') := by
  constructor
  · intro db' p hok
    unfold get_racun_pdf at hok
    cases hfind : findRacun db rid with
    | none => rw [hfind] at hok; simp at hok
    | some r0 =>
        rw [hfind] at hok
        simp only [] at hok
        cases hpdf : r0.pdf_pot with
        | none =>
            rw [hpdf] at hok
            simp only [] at hok
            obtain ⟨r1, hfind1, hdb'⟩ := generate_pdf_ok db rid db' p hok
            rw [hfind] at hfind1
            have hr1 : r0 = r1 := Option.some.inj hfind1
            subst hr1
            have hmem := List.mem_of_find?_eq_some hfind
            have hid : r0.id = rid := by
              have := List.find?_some hfind
              rwa [beq_iff_eq] at this
            have hnotpos : r0.status ≠ "POSLAN" := by
              intro habs
              have := hinv r0 hmem habs
              rw [hpdf] at this
              simp at this
            constructor
            · rw [hdb']
              exact mapUpdate_forwardStep db.racuni rid r0 huniq hmem hid _ rfl
                ((statusRank_le_one r0.status hnotpos).trans
                  (show (1 : Nat) ≤ statusRank "GENERIRAN" by decide))
            · rw [hdb']
              intro r' hr'
              refine mapUpdate_pdfInv db.racuni rid _ hinv ?_ r' hr'
              intro r hr hrid habs
              exact absurd (show ("GENERIRAN" : String) = "POSLAN" from habs) (by decide)
        | some path =>
            rw [hpdf] at hok
            simp only [] at hok
            simp only [Except.ok.injEq, Prod.mk.injEq] at hok
            obtain ⟨h1, -⟩ := hok
            rw [← h1]
            exact ⟨forwardStep_refl _, hinv⟩
  · intro db' b hok
    obtain ⟨r0, hfind, hpdf, hdb'⟩ :=
      send_email_ok db rid recipient smtpConf smtpOk db' b hok
    have hmem := List.mem_of_find?_eq_some hfind
    have hid : r0.id = rid := by
      have := List.find?_some hfind
      rwa [beq_iff_eq] at this
    constructor
    · rw [hdb']
      exact mapUpdate_forwardStep db.racuni rid r0 huniq hmem hid _ rfl
        ((statusRank_le_two r0.status).trans
          (show (2 : Nat) ≤ statusRank "POSLAN" by decide))
    · rw [hdb']
      intro r' hr'
      refine mapUpdate_pdfInv db.racuni rid _ hinv ?_ r' hr'
      intro r hr hrid habs
      have hreq : r = r0 := pairwise_id_eq huniq hr hmem
        (by rw [beq_iff_eq] at hrid; rw [hrid, hid])
      show r.pdf_pot.isSome = true
      rw [hreq]
      cases hc : r0.pdf_pot with
      | none => rw [hc] at hpdf; simp at hpdf
      | some q => rfl

/-- Counterexample to C9: invoking `generate_pdf` on an invoice in the
terminal `POSLAN` (SENT) state succeeds and rewrites its status to
`GENERIRAN` (DOCUMENT_GENERATED) — a backward move out of SENT, because
invoice_service.py line 150 assigns the status unconditionally. -/
theorem sent_not_terminal_cex :
    dbSentInvoice.racuni.map (fun r => r.status) = ["POSLAN"] ∧
    (generate_pdf dbSentInvoice 7).toOption.map
      (fun q => q.1.racuni.map (fun r => r.status)) = some ["GENERIRAN"] ∧
    statusRank "GENERIRAN" < statusRank "POSLAN" := by
  decide

/-- Witness for C9's amended statement: from a fresh invoice the guarded
operations only move forward. -/
theorem invoice_status_forward_witness :
    (∀ db' p, get_racun_pdf dbFreshInvoice 7 = .ok (db', p) →
       forwardStep dbFreshInvoice.racuni db'.racuni ∧ pdfInv db') ∧
    (∀ db' b, send_invoice_email dbFreshInvoice 7 (some "x@y.si") true true = .ok (db', b) →
       forwardStep dbFreshInvoice.racuni db'.racuni ∧ pdfInv db') :=
  invoice_status_forward dbFreshInvoice 7 (some "x@y.si") true true
    (by unfold pdfInv; decide) (by decide)

/-! ## C4 — invoice numbering -/

theorem natDigitsAux_ofDigits :
    ∀ fuel n, 0 < n → n ≤ fuel → Nat.ofDigits 10 (natDigitsAux fuel n) = n := by
  intro fuel
  induction fuel with
  | zero => intro n h1 h2; omega
  | succ f ih =>
      intro n h1 h2
      cases n with
      | zero => omega
      | succ k =>
          rw [natDigitsAux, Nat.ofDigits_cons]
          by_cases hq : (k + 1) / 10 = 0
          · have hnil : natDigitsAux f ((k + 1) / 10) = [] := by
              rw [hq]
              cases f <;> rfl
            rw [hnil, Nat.ofDigits_nil]
            have := Nat.mod_add_div (k + 1) 10
            omega
          · have hlt : (k + 1) / 10 < k + 1 :=
              Nat.div_lt_self (Nat.succ_pos k) (by norm_num)
            have hle : (k + 1) / 10 ≤ f := by omega
            rw [ih _ (Nat.pos_of_ne_zero hq) hle]
            have := Nat.mod_add_div (k + 1) 10
            omega

theorem natDigits_ofDigits (n : Nat) :
    Nat.ofDigits 10 (natDigits n).reverse = n := by
  unfold natDigits
  by_cases h : n = 0
  · rw [if_pos h, h]
    decide
  · rw [if_neg h, List.reverse_reverse]
    exact natDigitsAux_ofDigits n n (Nat.pos_of_ne_zero h) le_rfl

theorem ofDigits_replicate_zero :
    ∀ k, Nat.ofDigits 10 (List.replicate k 0) = 0 := by
  intro k
  induction k with
  | zero => rfl
  | succ j ih =>
      rw [List.replicate_succ, Nat.ofDigits_cons, ih]

theorem pad6Digits_ofDigits (n : Nat) :
    Nat.ofDigits 10 (pad6Digits n).reverse = n := by
  unfold pad6Digits
  rw [List.reverse_append, List.reverse_replicate, Nat.ofDigits_append,
      natDigits_ofDigits, ofDigits_replicate_zero]
  simp

theorem pad6Digits_inj {a b : Nat} (h : pad6Digits a = pad6Digits b) : a = b := by
  have ha := pad6Digits_ofDigits a
  rw [h, pad6Digits_ofDigits b] at ha
  exact ha.symm

theorem natDigitsAux_lt_ten :
    ∀ fuel n, ∀ d ∈ natDigitsAux fuel n, d < 10 := by
  intro fuel
  induction fuel with
  | zero => intro n d h; cases h
  | succ f ih =>
      intro n d h
      cases n with
      | zero => cases h
      | succ k =>
          rw [natDigitsAux] at h
          rcases List.mem_cons.mp h with h | h
          · subst h; exact Nat.mod_lt _ (by norm_num)
          · exact ih _ d h

theorem pad6Digits_lt_ten (n : Nat) : ∀ d ∈ pad6Digits n, d < 10 := by
  intro d h
  unfold pad6Digits at h
  rcases List.mem_append.mp h with h | h
  · rw [List.eq_of_mem_replicate h]; norm_num
  · unfold natDigits at h
    by_cases h0 : n = 0
    · rw [if_pos h0] at h
      rw [List.mem_singleton.mp h]; norm_num
    · rw [if_neg h0, List.mem_reverse] at h
      exact natDigitsAux_lt_ten n n d h

theorem digChar_inj_lt :
    ∀ a, a < 10 → ∀ b, b < 10 → digChar a = digChar b → a = b := by decide

theorem map_digChar_inj :
    ∀ (l1 l2 : List Nat), (∀ d ∈ l1, d < 10) → (∀ d ∈ l2, d < 10) →
      l1.map digChar = l2.map digChar → l1 = l2 := by
  intro l1
  induction l1 with
  | nil =>
      intro l2 _ _ h
      cases l2 with
      | nil => rfl
      | cons b t => simp at h
  | cons a t ih =>
      intro l2 h1 h2 h
      cases l2 with
      | nil => simp at h
      | cons b t2 =>
          simp only [List.map_cons, List.cons.injEq] at h
          have ha : a = b :=
            digChar_inj_lt a (h1 a (List.mem_cons_self a t)) b
              (h2 b (List.mem_cons_self b t2)) h.1
          rw [ha, ih t2 (fun d hd => h1 d (List.mem_cons_of_mem a hd))
              (fun d hd => h2 d (List.mem_cons_of_mem b hd)) h.2]

theorem pad6_inj {a b : Nat} (h : pad6 a = pad6 b) : a = b := by
  unfold pad6 digStr at h
  have h3 : (pad6Digits a).map digChar = (pad6Digits b).map digChar :=
    congrArg String.data h
  exact pad6Digits_inj
    (map_digChar_inj _ _ (pad6Digits_lt_ten a) (pad6Digits_lt_ten b) h3)

/-- Two generated numbers of the same year agree only on equal sequence
numbers. -/
theorem yearNum_inj (y a b : Nat)
    (h : yearTag y ++ pad6 a = yearTag y ++ pad6 b) : a = b := by
  apply pad6_inj
  have hd := congrArg String.data h
  rw [String.data_append, String.data_append] at hd
  have hdata := List.append_cancel_left hd
  exact congrArg String.mk hdata

/-- Every generated number matches the `LIKE '{year}-%'` probe of its own
year. -/
theorem strLike_yearNum (y s : Nat) :
    strLike (yearTag y ++ pad6 s) (yearTag y) = true := by
  unfold strLike
  rw [String.data_append, List.take_left]
  simp

/-- Inserting one invoice whose number matches the year probe bumps the
year's count by one. -/
theorem yearCount_insert (db db1 : DB) (y : Nat) (r : Racun)
    (hr : db1.racuni = db.racuni ++ [r])
    (hl : strLike r.stevilka_racuna (yearTag y) = true) :
    yearCount db1 y = yearCount db y + 1 := by
  unfold yearCount
  rw [hr, List.filter_append]
  simp [hl]

/-- A successful `create_invoice` stamped the generated number on the new
header, appended exactly that header to the invoice table, and appended its
line items — a non-empty snapshot of the calculator's output — to the line
item table. -/
theorem create_invoice_ok (db : DB) (now y lid od do_ : Nat) (db1 : DB) (r : Racun)
    (h : create_invoice db now y lid od do_ = .ok (db1, r)) :
    r.stevilka_racuna = generate_invoice_number db y ∧
    db1.racuni = db.racuni ++ [r] ∧
    db1.postavke = db.postavke ++
      storePostavke r.id db.next_postavka_id (calculate_invoice_amount db lid od do_).2 ∧
    (calculate_invoice_amount db lid od do_).2 ≠ [] := by
  simp only [create_invoice] at h
  split_ifs at h with hA hB
  simp only [Except.ok.injEq, Prod.mk.injEq] at h
  obtain ⟨h1, h2⟩ := h
  subst h2
  refine ⟨rfl, by rw [← h1], by rw [← h1], ?_⟩
  intro habs
  rw [habs] at hA
  exact hA rfl

/-- The line items stored for a fresh invoice all reference it, and there is
at least one of them when the calculator produced any. -/
theorem storePostavke_any (rid pid : Nat) (items : List LineItem)
    (h : items ≠ []) :
    (storePostavke rid pid items).any (fun p => p.racun_id == rid) = true := by
  cases items with
  | nil => exact absurd rfl h
  | cons x xs => simp [storePostavke, List.enumFrom]

/-- Invoice creation preserves the invariant that every stored invoice has
at least one line item referencing it. -/
theorem create_invoice_preserves_items (db : DB) (now y lid od do_ : Nat)
    (db1 : DB) (r : Racun)
    (h : create_invoice db now y lid od do_ = .ok (db1, r))
    (hinv : ∀ x ∈ db.racuni, db.postavke.any (fun p => p.racun_id == x.id) = true) :
    ∀ x ∈ db1.racuni, db1.postavke.any (fun p => p.racun_id == x.id) = true := by
  obtain ⟨-, hrac, hpos, hne⟩ := create_invoice_ok db now y lid od do_ db1 r h
  intro x hx
  rw [hrac, List.mem_append] at hx
  rw [hpos, List.any_append]
  rcases hx with hx | hx
  · rw [hinv x hx]
    rfl
  · rw [List.mem_singleton] at hx
    subst hx
    rw [storePostavke_any _ _ _ hne]
    simp

/-- Under that invariant, deleting an invoice always fails: a missing id is
`NotFound`, an existing one trips the NOT NULL line-item constraint. -/
theorem delete_racun_fails (db : DB) (rid : Nat)
    (hinv : ∀ x ∈ db.racuni, db.postavke.any (fun p => p.racun_id == x.id) = true) :
    delete_racun db rid = .error .notFound ∨
    delete_racun db rid = .error .integrityViolation := by
  unfold delete_racun
  by_cases h1 : db.racuni.any (fun r => r.id == rid) = true
  · right
    rw [if_neg (not_not_intro h1)]
    obtain ⟨r, hr, hid⟩ := List.any_eq_true.mp h1
    rw [beq_iff_eq] at hid
    have hp := hinv r hr
    rw [hid] at hp
    rw [if_pos hp]
  · left
    rw [if_pos h1]

/-- Specification of a mixed run: every creation succeeds with the next
count-based number, and deletion attempts never change the state, so the
i-th created invoice carries number `{y}-{pad6 (count + i + 1)}` computed
from the year count at the start of the run. -/
theorem opRun_spec (now y lid od do_ : Nat) :
    ∀ (ops : List AdminOp) (db db' : DB) (rs : List Racun),
      (∀ x ∈ db.racuni, db.postavke.any (fun p => p.racun_id == x.id) = true) →
      opRun now y lid od do_ ops db = some (db', rs) →
      rs.length = (ops.filter isCreateOp).length ∧
      (∀ i (hi : i < rs.length),
         (rs.get ⟨i, hi⟩).stevilka_racuna =
           yearTag y ++ pad6 (yearCount db y + i + 1)) := by
  intro ops
  induction ops with
  | nil =>
      intro db db' rs hinv h
      simp only [opRun, Option.some.injEq, Prod.mk.injEq] at h
      obtain ⟨-, h2⟩ := h
      subst h2
      refine ⟨rfl, ?_⟩
      intro i hi
      simp at hi
  | cons op rest ih =>
      intro db db' rs hinv h
      cases op with
      | createOp =>
          unfold opRun at h
          cases hc : create_invoice db now y lid od do_ with
          | error e => rw [hc] at h; simp at h
          | ok p =>
              rw [hc] at h
              simp only [] at h
              cases hrun : opRun now y lid od do_ rest p.1 with
              | none => rw [hrun] at h; simp at h
              | some q =>
                  rw [hrun] at h
                  simp only [Option.some.injEq, Prod.mk.injEq] at h
                  obtain ⟨-, h2⟩ := h
                  subst h2
                  obtain ⟨hnum, hins, -, -⟩ :=
                    create_invoice_ok db now y lid od do_ p.1 p.2 hc
                  have hlike : strLike p.2.stevilka_racuna (yearTag y) = true := by
                    rw [hnum]
                    unfold generate_invoice_number
                    exact strLike_yearNum y (yearCount db y + 1)
                  have hyc : yearCount p.1 y = yearCount db y + 1 :=
                    yearCount_insert db p.1 y p.2 hins hlike
                  have hinv1 := create_invoice_preserves_items db now y lid od do_
                    p.1 p.2 hc hinv
                  obtain ⟨hlen, hnums⟩ := ih p.1 q.1 q.2 hinv1 hrun
                  refine ⟨by simp [hlen, isCreateOp], ?_⟩
                  intro i hi
                  cases i with
                  | zero =>
                      simp only [List.get]
                      rw [hnum]
                      unfold generate_invoice_number
                      rfl
                  | succ j =>
                      have hj : j < q.2.length := by
                        simp only [List.length_cons] at hi
                        omega
                      simp only [List.get]
                      rw [hnums j hj, hyc]
                      have harith : yearCount db y + 1 + j + 1 =
                          yearCount db y + (j + 1) + 1 := by omega
                      rw [harith]
      | deleteOp rid =>
          unfold opRun at h
          rcases delete_racun_fails db rid hinv with hd | hd <;>
            rw [hd] at h <;>
            simp only [] at h <;>
            simpa [isCreateOp] using ih db db' rs hinv h

/-- C4: every generated invoice number is `{calendar_year}-{sequence:06d}`
with the sequence one more than the count of that year's existing numbers,
and along any sequential run of invoice creations — with arbitrary
intervening deletion attempts — the created numbers follow
`count+1, count+2, ...`: pairwise distinct and strictly increasing in
creation order.  Deletions cannot disturb the sequence because
`delete_racun` fails for every invoice (each one carries line items, whose
NOT NULL foreign key blocks the delete at commit), so the invoice table is
append-only in this program. -/
theorem invoice_numbering_monotone (now y lid od do_ : Nat)
    (ops : List AdminOp) (db db' : DB) (rs : List Racun)
    (hinv : ∀ x ∈ db.racuni, db.postavke.any (fun p => p.racun_id == x.id) = true)
    (h : opRun now y lid od do_ ops db = some (db', rs)) :
    (generate_invoice_number db y = yearTag y ++ pad6 (yearCount db y + 1)) ∧
    rs.length = (ops.filter isCreateOp).length ∧
    (∀ i (hi : i < rs.length),
       (rs.get ⟨i, hi⟩).stevilka_racuna =
         yearTag y ++ pad6 (yearCount db y + i + 1)) ∧
    (∀ i j (hi : i < rs.length) (hj : j < rs.length), i ≠ j →
       (rs.get ⟨i, hi⟩).stevilka_racuna ≠ (rs.get ⟨j, hj⟩).stevilka_racuna) := by
  obtain ⟨hlen, hnum⟩ := opRun_spec now y lid od do_ ops db db' rs hinv h
  refine ⟨rfl, hlen, hnum, ?_⟩
  intro i j hi hj hij hcontra
  rw [hnum i hi, hnum j hj] at hcontra
  have := yearNum_inj y _ _ hcontra
  omega

/-- Witness for C4: a run of create, delete-attempt on the just-created
invoice, create succeeds end to end; the deletion attempt fails with the
integrity violation and the two created invoices are numbered 000001 and
000002. -/
theorem invoice_numbering_monotone_witness :
    (∀ x ∈ dbWithReading.racuni,
       dbWithReading.postavke.any (fun p => p.racun_id == x.id) = true) ∧
    (opRun 0 2025 1 0 100 [AdminOp.createOp, AdminOp.deleteOp 1, AdminOp.createOp]
       dbWithReading).isSome = true ∧
    ((create_invoice dbWithReading 0 2025 1 0 100).toOption.map
       (fun p => match delete_racun p.1 p.2.id with
                 | .error e => some e
                 | .ok _ => none)) =
      some (some ApiError.integrityViolation) ∧
    (∀ db' rs,
       opRun 0 2025 1 0 100 [AdminOp.createOp, AdminOp.deleteOp 1, AdminOp.createOp]
         dbWithReading = some (db', rs) →
       (generate_invoice_number dbWithReading 2025 =
          yearTag 2025 ++ pad6 (yearCount dbWithReading 2025 + 1)) ∧
       rs.length = ([AdminOp.createOp, AdminOp.deleteOp 1,
         AdminOp.createOp].filter isCreateOp).length ∧
       (∀ i (hi : i < rs.length),
          (rs.get ⟨i, hi⟩).stevilka_racuna =
            yearTag 2025 ++ pad6 (yearCount dbWithReading 2025 + i + 1)) ∧
       (∀ i j (hi : i < rs.length) (hj : j < rs.length), i ≠ j →
          (rs.get ⟨i, hi⟩).stevilka_racuna ≠ (rs.get ⟨j, hj⟩).stevilka_racuna)) :=
  ⟨by decide, by decide, by decide,
   fun db' rs h => invoice_numbering_monotone 0 2025 1 0 100
     [AdminOp.createOp, AdminOp.deleteOp 1, AdminOp.createOp]
     dbWithReading db' rs (by decide) h⟩
